import Mathlib

/-!
Verification development for the GPU pre-aggregation planner module
(`src/next/gpu_preagg.c`).  The C code is shallowly embedded: the static
aggregate-transformation catalog, the catalog resolver and its process-wide
cache, the expression rewriter, the target-list builder and the cost-based
path assembler are translated into executable Lean definitions.  Host-engine
facilities that the module consumes through narrow interfaces (system
catalogs, device-capability tests, cost primitives, path constructors) are
modelled as explicit oracle fields of a `LiveCatalog` / `HostEnv` record, and
PostgreSQL memory/list structures become functional lists.  `elog(ERROR)`
becomes the `Except.error` branch; returning `NULL` to decline becomes
`Option.none`.
-/

set_option autoImplicit false

/-- PostgreSQL object identifier. -/
abbrev Oid := Nat

/-- `pg_catalog` namespace oid (`PG_CATALOG_NAMESPACE`). -/
def PG_CATALOG_NAMESPACE : Oid := 11

/-- `int8` type oid (`INT8OID`). -/
def INT8OID : Oid := 20

/-- `float8` type oid (`FLOAT8OID`). -/
def FLOAT8OID : Oid := 701

/-- `bytea` type oid (`BYTEAOID`). -/
def BYTEAOID : Oid := 17

/-- Wildcard `any` pseudo-type oid (`ANYOID`). -/
def ANYOID : Oid := 2276

/-- The `KAGG_ACTION__*` enumeration of partial-result encoding actions. -/
inductive KAggAction where
  | nrows_any
  | nrows_cond
  | pmin_int
  | pmin_fp
  | pmax_int
  | pmax_fp
  | psum_int
  | psum_fp
  | pavg_int
  | pavg_fp
  | stddev
  | covar
  | vref
deriving DecidableEq, Repr

/-- One row of the static aggregate-transformation catalog
(`aggfunc_catalog_t`). -/
structure aggfunc_catalog_t where
  aggfn_signature : String
  finalfn_signature : String
  partfn_signature : String
  partfn_action : KAggAction
  numeric_aware : Bool
deriving DecidableEq, Repr

/-- Rows 1-28 of the static catalog (count, min, max). -/
def aggfunc_catalog_rows_a : List aggfunc_catalog_t := [
  ⟨"count()", "s:sum(int8)", "s:nrows()", .nrows_any, false⟩,
  ⟨"count(any)", "s:sum(int8)", "s:nrows(any)", .nrows_cond, false⟩,
  ⟨"min(int1)", "s:min_i1(bytea)", "s:pmin(int1)", .pmin_int, false⟩,
  ⟨"min(int2)", "s:min_i2(bytea)", "s:pmin(int2)", .pmin_int, false⟩,
  ⟨"min(int4)", "s:min_i4(bytea)", "s:pmin(int4)", .pmin_int, false⟩,
  ⟨"min(int8)", "s:min_i8(bytea)", "s:pmin(int8)", .pmin_int, false⟩,
  ⟨"min(float2)", "s:min_f2(bytea)", "s:pmin(float4)", .pmin_fp, false⟩,
  ⟨"min(float4)", "s:min_f4(bytea)", "s:pmin(float4)", .pmin_fp, false⟩,
  ⟨"min(float8)", "s:min_f8(bytea)", "s:pmin(float8)", .pmin_fp, false⟩,
  ⟨"min(numeric)", "s:min_num(bytea)", "s:pmin(float8)", .pmin_fp, true⟩,
  ⟨"min(money)", "s:min_cash(bytea)", "s:pmin(money)", .pmin_int, false⟩,
  ⟨"min(date)", "s:min_date(bytea)", "s:pmin(date)", .pmin_int, false⟩,
  ⟨"min(time)", "s:min_time(bytea)", "s:pmin(time)", .pmin_int, false⟩,
  ⟨"min(timestamp)", "s:min_ts(bytea)", "s:pmin(timestamp)", .pmin_int, false⟩,
  ⟨"min(timestamptz)", "s:min_tstz(bytea)", "s:pmin(timestamptz)", .pmin_int, false⟩,
  ⟨"max(int1)", "s:max_i1(bytea)", "s:pmax(int1)", .pmax_int, false⟩,
  ⟨"max(int2)", "s:max_i2(bytea)", "s:pmax(int2)", .pmax_int, false⟩,
  ⟨"max(int4)", "s:max_i4(bytea)", "s:pmax(int4)", .pmax_int, false⟩,
  ⟨"max(int8)", "s:max_i8(bytea)", "s:pmax(int8)", .pmax_int, false⟩,
  ⟨"max(float2)", "s:max_f2(bytea)", "s:pmax(float4)", .pmax_fp, false⟩,
  ⟨"max(float4)", "s:max_f4(bytea)", "s:pmax(float4)", .pmax_fp, false⟩,
  ⟨"max(float8)", "s:max_f8(bytea)", "s:pmax(float8)", .pmax_fp, false⟩,
  ⟨"max(numeric)", "s:max_num(bytea)", "s:pmax(float8)", .pmax_fp, true⟩,
  ⟨"max(money)", "s:max_cash(bytea)", "s:pmax(money)", .pmax_int, false⟩,
  ⟨"max(date)", "s:max_date(bytea)", "s:pmax(date)", .pmax_int, false⟩,
  ⟨"max(time)", "s:max_time(bytea)", "s:pmax(time)", .pmax_int, false⟩,
  ⟨"max(timestamp)", "s:max_ts(bytea)", "s:pmax(timestamp)", .pmax_int, false⟩,
  ⟨"max(timestamptz)", "s:max_tstz(bytea)", "s:pmax(timestamptz)", .pmax_int, false⟩]

/-- Rows 29-53 of the static catalog (sum, avg, stddev). -/
def aggfunc_catalog_rows_b : List aggfunc_catalog_t := [
  ⟨"sum(int1)", "s:sum(int8)", "s:psum(int8)", .psum_int, false⟩,
  ⟨"sum(int2)", "s:sum(int8)", "s:psum(int8)", .psum_int, false⟩,
  ⟨"sum(int4)", "s:sum(int8)", "s:psum(int8)", .psum_int, false⟩,
  ⟨"sum(int8)", "c:sum(int8)", "s:psum(int8)", .psum_int, false⟩,
  ⟨"sum(float2)", "c:sum(float8)", "s:psum(float4)", .psum_fp, false⟩,
  ⟨"sum(float4)", "s:sum_f4(float8)", "s:psum(float4)", .psum_fp, false⟩,
  ⟨"sum(float8)", "c:sum(float8)", "s:psum(float8)", .psum_fp, false⟩,
  ⟨"sum(numeric)", "s:sum_num(float8)", "s:psum(float8)", .psum_fp, true⟩,
  ⟨"sum(money)", "s:sum_cash(int8)", "s:psum(money)", .psum_int, false⟩,
  ⟨"avg(int1)", "s:avg_int(bytea)", "s:pavg(int8)", .pavg_int, false⟩,
  ⟨"avg(int2)", "s:avg_int(bytea)", "s:pavg(int8)", .pavg_int, false⟩,
  ⟨"avg(int4)", "s:avg_int(bytea)", "s:pavg(int8)", .pavg_int, false⟩,
  ⟨"avg(int8)", "s:avg_int(bytea)", "s:pavg(int8)", .pavg_int, false⟩,
  ⟨"avg(float2)", "s:avg_fp(bytea)", "s:pavg(float8)", .pavg_fp, false⟩,
  ⟨"avg(float4)", "s:avg_fp(bytea)", "s:pavg(float8)", .pavg_fp, false⟩,
  ⟨"avg(float8)", "s:avg_fp(bytea)", "s:pavg(float8)", .pavg_fp, false⟩,
  ⟨"avg(numeric)", "s:avg_num(bytea)", "s:pavg(float8)", .pavg_fp, true⟩,
  ⟨"stddev(int1)", "s:stddev_samp(bytea)", "s:pvariance(float8)", .stddev, false⟩,
  ⟨"stddev(int2)", "s:stddev_samp(bytea)", "s:pvariance(float8)", .stddev, false⟩,
  ⟨"stddev(int4)", "s:stddev_samp(bytea)", "s:pvariance(float8)", .stddev, false⟩,
  ⟨"stddev(int8)", "s:stddev_samp(bytea)", "s:pvariance(float8)", .stddev, false⟩,
  ⟨"stddev(float2)", "s:stddev_sampf(bytea)", "s:pvariance(float8)", .stddev, false⟩,
  ⟨"stddev(float4)", "s:stddev_sampf(bytea)", "s:pvariance(float8)", .stddev, false⟩,
  ⟨"stddev(float8)", "s:stddev_sampf(bytea)", "s:pvariance(float8)", .stddev, false⟩,
  ⟨"stddev(numeric)", "s:stddev_samp(bytea)", "s:pvariance(float8)", .stddev, true⟩]

/-- Rows 54-77 of the static catalog (stddev_samp, stddev_pop, variance). -/
def aggfunc_catalog_rows_c : List aggfunc_catalog_t := [
  ⟨"stddev_samp(int1)", "s:stddev_samp(bytea)", "s:pvariance(float8)", .stddev, false⟩,
  ⟨"stddev_samp(int2)", "s:stddev_samp(bytea)", "s:pvariance(float8)", .stddev, false⟩,
  ⟨"stddev_samp(int4)", "s:stddev_samp(bytea)", "s:pvariance(float8)", .stddev, false⟩,
  ⟨"stddev_samp(int8)", "s:stddev_samp(bytea)", "s:pvariance(float8)", .stddev, false⟩,
  ⟨"stddev_samp(float2)", "s:stddev_sampf(bytea)", "s:pvariance(float8)", .stddev, false⟩,
  ⟨"stddev_samp(float4)", "s:stddev_sampf(bytea)", "s:pvariance(float8)", .stddev, false⟩,
  ⟨"stddev_samp(float8)", "s:stddev_sampf(bytea)", "s:pvariance(float8)", .stddev, false⟩,
  ⟨"stddev_samp(numeric)", "s:stddev_samp(bytea)", "s:pvariance(float8)", .stddev, true⟩,
  ⟨"stddev_pop(int1)", "s:stddev_pop(bytea)", "s:pvariance(float8)", .stddev, false⟩,
  ⟨"stddev_pop(int2)", "s:stddev_pop(bytea)", "s:pvariance(float8)", .stddev, false⟩,
  ⟨"stddev_pop(int4)", "s:stddev_pop(bytea)", "s:pvariance(float8)", .stddev, false⟩,
  ⟨"stddev_pop(int8)", "s:stddev_pop(bytea)", "s:pvariance(float8)", .stddev, false⟩,
  ⟨"stddev_pop(float2)", "s:stddev_popf(bytea)", "s:pvariance(float8)", .stddev, false⟩,
  ⟨"stddev_pop(float4)", "s:stddev_popf(bytea)", "s:pvariance(float8)", .stddev, false⟩,
  ⟨"stddev_pop(float8)", "s:stddev_popf(bytea)", "s:pvariance(float8)", .stddev, false⟩,
  ⟨"stddev_pop(numeric)", "s:stddev_pop(bytea)", "s:pvariance(float8)", .stddev, true⟩,
  ⟨"variance(int1)", "s:var_samp(bytea)", "s:pvariance(float8)", .stddev, false⟩,
  ⟨"variance(int2)", "s:var_samp(bytea)", "s:pvariance(float8)", .stddev, false⟩,
  ⟨"variance(int4)", "s:var_samp(bytea)", "s:pvariance(float8)", .stddev, false⟩,
  ⟨"variance(int8)", "s:var_samp(bytea)", "s:pvariance(float8)", .stddev, false⟩,
  ⟨"variance(float2)", "s:var_sampf(bytea)", "s:pvariance(float8)", .stddev, false⟩,
  ⟨"variance(float4)", "s:var_sampf(bytea)", "s:pvariance(float8)", .stddev, false⟩,
  ⟨"variance(float8)", "s:var_sampf(bytea)", "s:pvariance(float8)", .stddev, false⟩,
  ⟨"variance(numeric)", "s:var_samp(bytea)", "s:pvariance(float8)", .stddev, true⟩]

/-- Rows 78-105 of the static catalog (var_samp, var_pop, covariance, regression). -/
def aggfunc_catalog_rows_d : List aggfunc_catalog_t := [
  ⟨"var_samp(int1)", "s:var_samp(bytea)", "s:pvariance(float8)", .stddev, false⟩,
  ⟨"var_samp(int2)", "s:var_samp(bytea)", "s:pvariance(float8)", .stddev, false⟩,
  ⟨"var_samp(int4)", "s:var_samp(bytea)", "s:pvariance(float8)", .stddev, false⟩,
  ⟨"var_samp(int8)", "s:var_samp(bytea)", "s:pvariance(float8)", .stddev, false⟩,
  ⟨"var_samp(float2)", "s:var_sampf(bytea)", "s:pvariance(float8)", .stddev, false⟩,
  ⟨"var_samp(float4)", "s:var_sampf(bytea)", "s:pvariance(float8)", .stddev, false⟩,
  ⟨"var_samp(float8)", "s:var_sampf(bytea)", "s:pvariance(float8)", .stddev, false⟩,
  ⟨"var_samp(numeric)", "s:var_samp(bytea)", "s:pvariance(float8)", .stddev, true⟩,
  ⟨"var_pop(int1)", "s:var_pop(bytea)", "s:pvariance(float8)", .stddev, false⟩,
  ⟨"var_pop(int2)", "s:var_pop(bytea)", "s:pvariance(float8)", .stddev, false⟩,
  ⟨"var_pop(int4)", "s:var_pop(bytea)", "s:pvariance(float8)", .stddev, false⟩,
  ⟨"var_pop(int8)", "s:var_pop(bytea)", "s:pvariance(float8)", .stddev, false⟩,
  ⟨"var_pop(float2)", "s:var_popf(bytea)", "s:pvariance(float8)", .stddev, false⟩,
  ⟨"var_pop(float4)", "s:var_popf(bytea)", "s:pvariance(float8)", .stddev, false⟩,
  ⟨"var_pop(float8)", "s:var_popf(bytea)", "s:pvariance(float8)", .stddev, false⟩,
  ⟨"var_pop(numeric)", "s:var_pop(bytea)", "s:pvariance(float8)", .stddev, true⟩,
  ⟨"corr(float8,float8)", "s:covar_samp(bytea)", "s:pcovar(float8,float8)", .covar, false⟩,
  ⟨"covar_samp(float8,float8)", "s:covar_samp(bytea)", "s:pcovar(float8,float8)", .covar, false⟩,
  ⟨"covar_pop(float8,float8)", "s:covar_pop(bytea)", "s:pcovar(float8,float8)", .covar, false⟩,
  ⟨"regr_avgx(float8,float8)", "s:regr_avgx(bytea)", "s:pcovar(float8,float8)", .covar, false⟩,
  ⟨"regr_avgy(float8,float8)", "s:regr_avgy(bytea)", "s:pcovar(float8,float8)", .covar, false⟩,
  ⟨"regr_count(float8,float8)", "s:regr_count(bytea)", "s:pcovar(float8,float8)", .covar, false⟩,
  ⟨"regr_intercept(float8,float8)", "s:regr_intercept(bytea)", "s:pcovar(float8,float8)", .covar, false⟩,
  ⟨"regr_r2(float8,float8)", "s:regr_r2(bytea)", "s:pcovar(float8,float8)", .covar, false⟩,
  ⟨"regr_slope(float8,float8)", "s:regr_slope(bytea)", "s:pcovar(float8,float8)", .covar, false⟩,
  ⟨"regr_sxx(float8,float8)", "s:regr_sxx(bytea)", "s:pcovar(float8,float8)", .covar, false⟩,
  ⟨"regr_sxy(float8,float8)", "s:regr_sxy(bytea)", "s:pcovar(float8,float8)", .covar, false⟩,
  ⟨"regr_syy(float8,float8)", "s:regr_syy(bytea)", "s:pcovar(float8,float8)", .covar, false⟩]

/-- The full static catalog `aggfunc_catalog_array`: the concatenation of the
four row blocks above, in source order; the C sentinel row `{NULL, ...}` is
the end of the list. -/
def aggfunc_catalog_array : List aggfunc_catalog_t :=
  aggfunc_catalog_rows_a ++ aggfunc_catalog_rows_b ++
  aggfunc_catalog_rows_c ++ aggfunc_catalog_rows_d

/-- Live `pg_proc` row as consulted by the module (`Form_pg_proc` fields it
reads: `proname`, `pronamespace`, `pronargs`, `proargtypes`, `prorettype`). -/
structure PgProc where
  proname : String
  pronamespace : Oid
  pronargs : Nat
  proargtypes : List Oid
  prorettype : Oid
deriving DecidableEq, Repr

/-- Live `pg_aggregate` row fields the module reads (`aggtranstype`,
`aggtransfn`, `aggfinalfn`); oid 0 = `InvalidOid`. -/
structure PgAggregateForm where
  aggtranstype : Oid
  aggtransfn : Oid
  aggfinalfn : Oid
deriving DecidableEq, Repr

/-- Live `pg_cast` row fields the module reads (`castmethod` is the C char
tag: COERCION_METHOD_BINARY is the char b, COERCION_METHOD_FUNCTION the
char f). -/
structure PgCast where
  castmethod : Char
  castfunc : Oid
deriving DecidableEq, Repr

/-- The live, mutable host catalog, abstracted as lookup oracles.  Each field
models one syscache/catalog access the C module performs:
`pgstrom_namespace` is `get_namespace_oid("pgstrom", false)` (none = raises),
`typeByName` is the TYPENAMENSP lookup in `pg_catalog`,
`typeName` is `get_type_name`,
`procByNameArgs` is the PROCNAMEARGSNSP lookup,
`procByOid` is the PROCOID syscache,
`isAggregate` is `SearchSysCacheExists1(AGGFNOID, ...)`,
`aggForm` is the AGGFNOID syscache tuple,
`castEntry` is the CASTSOURCETARGET syscache. -/
structure LiveCatalog where
  pgstrom_namespace : Option Oid
  typeByName : List Char → Option Oid
  typeName : Oid → Option (List Char)
  procByNameArgs : List Char → List Oid → Oid → Option Oid
  procByOid : Oid → Option PgProc
  isAggregate : Oid → Bool
  aggForm : Oid → Option PgAggregateForm
  castEntry : Oid → Oid → Option PgCast

/-- Splits a character list at every occurrence of `sep`, like repeated
`strtok_r` except that empty tokens are kept (the caller filters them,
matching `strtok_r` which skips empty tokens). -/
def split_chars (sep : Char) : List Char → List (List Char)
  | [] => [[]]
  | c :: cs =>
      if c = sep then [] :: split_chars sep cs
      else
        match split_chars sep cs with
        | [] => [[c]]
        | t :: ts => (c :: t) :: ts

/-- Splits a character list at the first occurrence of `sep` (like `strchr`
followed by truncation); `none` when `sep` does not occur. -/
def break_at_char (sep : Char) : List Char → Option (List Char × List Char)
  | [] => none
  | c :: cs =>
      if c = sep then some ([], cs)
      else
        match break_at_char sep cs with
        | none => none
        | some (pre, post) => some (c :: pre, post)

/-- Joins token lists with commas (inverse of the comma tokenizer; used to
rebuild `name(t1,t2)` signature strings the way `sprintf` does in C). -/
def join_comma : List (List Char) → List Char
  | [] => []
  | [x] => x
  | x :: xs => x ++ ',' :: join_comma xs

/-- `get_func_rettype`: fetches the declared return type of a function oid;
raises (models `elog(ERROR)`) when the function does not exist. -/
def get_func_rettype (live : LiveCatalog) (func_oid : Oid) : Except String Oid :=
  match live.procByOid func_oid with
  | none => .error "cache lookup failed for function"
  | some proc => .ok proc.prorettype

/-- `get_func_nargs`: fetches the declared argument count of a function oid. -/
def get_func_nargs (live : LiveCatalog) (func_oid : Oid) : Except String Nat :=
  match live.procByOid func_oid with
  | none => .error "cache lookup failed for function"
  | some proc => .ok proc.pronargs

/-- `__aggfunc_resolve_func_signature`: parses a catalog signature string of
shape `c:name(t1,t2)` / `s:name(t1,t2)`, resolves the namespace prefix, the
argument type names and finally the function itself against the live catalog;
every lookup failure is a raised error, exactly as in C. -/
def __aggfunc_resolve_func_signature (live : LiveCatalog) (signature : String) :
    Except String Oid :=
  let chars := signature.data
  let ns? : Except String Oid :=
    match chars with
    | 'c' :: ':' :: _ => .ok PG_CATALOG_NAMESPACE
    | 's' :: ':' :: _ =>
        match live.pgstrom_namespace with
        | some ns => .ok ns
        | none => .error "namespace pgstrom was not found"
    | _ => .error "wrong function signature"
  match ns? with
  | .error msg => .error msg
  | .ok fn_namespace =>
      let body := chars.drop 2
      match break_at_char '(' body with
      | none => .error "wrong function signature"
      | some (fn_name, rest) =>
          match break_at_char ')' rest with
          | none => .error "wrong function signature"
          | some (argstr, _) =>
              let toks := (split_chars ',' argstr).filter (fun t => t ≠ [])
              let argtypes? : Except String (List Oid) :=
                toks.foldr (fun tok acc =>
                  match acc with
                  | .error msg => .error msg
                  | .ok oids =>
                      match live.typeByName tok with
                      | none => .error "cache lookup failed for type"
                      | some type_oid => .ok (type_oid :: oids)) (.ok [])
              match argtypes? with
              | .error msg => .error msg
              | .ok fn_argtypes =>
                  match live.procByNameArgs fn_name fn_argtypes fn_namespace with
                  | none => .error "Catalog corruption? function was not found"
                  | some fn_oid => .ok fn_oid

/-- Hashed catalog entry `aggfunc_catalog_entry` cached per aggregate oid. -/
structure aggfunc_catalog_entry where
  aggfn_oid : Oid
  final_func_oid : Oid
  partial_func_oid : Oid
  partial_func_rettype : Oid
  partial_func_nargs : Nat
  partial_func_action : KAggAction
  numeric_aware : Bool
  is_valid_entry : Bool
deriving DecidableEq, Repr

/-- Freshly hash-entered, not yet populated cache entry: the C code only
guarantees `is_valid_entry = false` before population. -/
def blank_catalog_entry (aggfn_oid : Oid) : aggfunc_catalog_entry :=
  { aggfn_oid := aggfn_oid
    final_func_oid := 0
    partial_func_oid := 0
    partial_func_rettype := 0
    partial_func_nargs := 0
    partial_func_action := .vref
    numeric_aware := false
    is_valid_entry := false }

/-- Fixed expectations of a `KAGG_ACTION__*` tag on the partial function:
(argument count, return type oid).  This is the `switch (partfn_action)`
of `__aggfunc_resolve_partial_func`; the default branch raises. -/
def kagg_action_requirements (partfn_action : KAggAction) :
    Except String (Nat × Oid) :=
  match partfn_action with
  | .nrows_any => .ok (0, INT8OID)
  | .nrows_cond => .ok (1, INT8OID)
  | .psum_int => .ok (1, INT8OID)
  | .psum_fp => .ok (1, FLOAT8OID)
  | .pmin_int => .ok (1, BYTEAOID)
  | .pmin_fp => .ok (1, BYTEAOID)
  | .pmax_int => .ok (1, BYTEAOID)
  | .pmax_fp => .ok (1, BYTEAOID)
  | .pavg_int => .ok (1, BYTEAOID)
  | .pavg_fp => .ok (1, BYTEAOID)
  | .stddev => .ok (1, BYTEAOID)
  | .covar => .ok (2, BYTEAOID)
  | .vref => .error "Catalog corruption? unknown action"

/-- `__aggfunc_resolve_partial_func`: resolves the partial function by
signature, stores its live return type / argument count / action in the
entry, and raises a fatal error when the live values do not match the
action's fixed expectations. -/
def __aggfunc_resolve_partial_func (live : LiveCatalog)
    (entry : aggfunc_catalog_entry) (partfn_signature : String)
    (partfn_action : KAggAction) : Except String aggfunc_catalog_entry :=
  match __aggfunc_resolve_func_signature live partfn_signature with
  | .error msg => .error msg
  | .ok func_oid =>
      match kagg_action_requirements partfn_action with
      | .error msg => .error msg
      | .ok (func_nargs, type_oid) =>
          match get_func_rettype live func_oid with
          | .error msg => .error msg
          | .ok rettype =>
              match get_func_nargs live func_oid with
              | .error msg => .error msg
              | .ok nargs =>
                  let entry :=
                    { entry with
                      partial_func_oid := func_oid
                      partial_func_rettype := rettype
                      partial_func_nargs := nargs
                      partial_func_action := partfn_action }
                  if entry.partial_func_rettype ≠ type_oid ∨
                     entry.partial_func_nargs ≠ func_nargs then
                    .error "Catalog curruption? partial function mismatch"
                  else
                    .ok entry

/-- `__aggfunc_resolve_final_func`: resolves the final function by signature
and raises a fatal error unless it is an aggregate whose return type equals
the original aggregate's return type and whose single argument type equals
the partial function's return type. -/
def __aggfunc_resolve_final_func (live : LiveCatalog)
    (entry : aggfunc_catalog_entry) (finalfn_signature : String)
    (agg_rettype : Oid) : Except String aggfunc_catalog_entry :=
  match __aggfunc_resolve_func_signature live finalfn_signature with
  | .error msg => .error msg
  | .ok func_oid =>
      if ¬ live.isAggregate func_oid then
        .error "Catalog corruption? final function mismatch"
      else
        match get_func_rettype live func_oid with
        | .error msg => .error msg
        | .ok rettype =>
            if rettype ≠ agg_rettype then
              .error "Catalog corruption? final function mismatch"
            else
              match live.procByOid func_oid with
              | none => .error "cache lookup failed for function"
              | some proc =>
                  if proc.pronargs ≠ 1 ∨ proc.proargtypes.length ≠ 1 ∨
                     proc.proargtypes.headD 0 ≠ entry.partial_func_rettype then
                    .error "Catalog corruption? final function mismatch"
                  else
                    .ok { entry with final_func_oid := func_oid }

/-- The process-wide resolver cache `aggfunc_catalog_htable`, modelled as an
association list keyed by aggregate oid. -/
def AggCache := List (Oid × aggfunc_catalog_entry)

/-- Hash-table search (`hash_search(..., HASH_FIND)`). -/
def cache_search (htable : AggCache) (aggfn_oid : Oid) :
    Option aggfunc_catalog_entry :=
  match htable with
  | [] => none
  | kv :: rest =>
      if kv.1 = aggfn_oid then some kv.2 else cache_search rest aggfn_oid

/-- Hash-table removal (`hash_search(..., HASH_REMOVE)`). -/
def cache_remove (htable : AggCache) (aggfn_oid : Oid) : AggCache :=
  match htable with
  | [] => []
  | kv :: rest =>
      if kv.1 = aggfn_oid then cache_remove rest aggfn_oid
      else kv :: cache_remove rest aggfn_oid

/-- Hash-table insert-or-replace (`hash_search(..., HASH_ENTER)` followed by
filling the entry in place). -/
def cache_upsert (htable : AggCache) (aggfn_oid : Oid)
    (entry : aggfunc_catalog_entry) : AggCache :=
  (aggfn_oid, entry) :: cache_remove htable aggfn_oid

/-- Resolves the argument type names of a proc (the `get_type_name` loop that
builds the `name(t1,t2)` signature buffer). -/
def arg_type_names (live : LiveCatalog) : List Oid → Except String (List (List Char))
  | [] => .ok []
  | type_oid :: rest =>
      match live.typeName type_oid with
      | none => .error "cache lookup failed for type"
      | some type_name =>
          match arg_type_names live rest with
          | .error msg => .error msg
          | .ok names => .ok (type_name :: names)

/-- The population step of `aggfunc_catalog_lookup_by_oid` (the body of the
`PG_TRY` block run when the oid is not yet cached): fetch the live `pg_proc`
row, gate on trusted namespace and at most two arguments, rebuild the
`name(args)` signature, scan the static catalog, and on a match resolve and
validate the partial and final functions.  Any raised error escapes to the
caller's `PG_CATCH`. -/
def aggfunc_catalog_populate (live : LiveCatalog) (aggfn_oid : Oid) :
    Except String aggfunc_catalog_entry :=
  match live.procByOid aggfn_oid with
  | none => .error "cache lookup failed for function"
  | some proc =>
      if proc.pronamespace = PG_CATALOG_NAMESPACE ∧ proc.pronargs ≤ 2 then
        match arg_type_names live (proc.proargtypes.take proc.pronargs) with
        | .error msg => .error msg
        | .ok names =>
            let buf := proc.proname.data ++ '(' :: (join_comma names ++ [')'])
            match aggfunc_catalog_array.find?
                (fun cat => cat.aggfn_signature.data = buf) with
            | some cat =>
                match __aggfunc_resolve_partial_func live
                    (blank_catalog_entry aggfn_oid)
                    cat.partfn_signature cat.partfn_action with
                | .error msg => .error msg
                | .ok entry1 =>
                    match __aggfunc_resolve_final_func live entry1
                        cat.finalfn_signature proc.prorettype with
                    | .error msg => .error msg
                    | .ok entry2 =>
                        .ok { entry2 with
                              numeric_aware := cat.numeric_aware
                              is_valid_entry := true }
            | none => .ok (blank_catalog_entry aggfn_oid)
      else .ok (blank_catalog_entry aggfn_oid)

/-- Final usability filter of `aggfunc_catalog_lookup_by_oid`: an invalid
entry is `none`, and a numeric-aware entry is `none` whenever the
`pg_strom.enable_numeric_aggfuncs` toggle is off; performed on every lookup,
after the cache access. -/
def aggfunc_entry_usability (enable_numeric_aggfuncs : Bool)
    (entry : aggfunc_catalog_entry) : Option aggfunc_catalog_entry :=
  if ¬ entry.is_valid_entry then none
  else if entry.numeric_aware ∧ ¬ enable_numeric_aggfuncs then none
  else some entry

/-- `aggfunc_catalog_lookup_by_oid`: cache-first resolver.  On a cache miss
the oid is hash-entered and populated inside `PG_TRY`; when population raises,
the `PG_CATCH` removes the half-built entry before re-throwing, so the
returned cache no longer holds the oid.  The usability filter runs on every
call, also for plain cache hits. -/
def aggfunc_catalog_lookup_by_oid (live : LiveCatalog)
    (enable_numeric_aggfuncs : Bool) (htable : AggCache) (aggfn_oid : Oid) :
    Except String (Option aggfunc_catalog_entry) × AggCache :=
  match cache_search htable aggfn_oid with
  | some entry =>
      (.ok (aggfunc_entry_usability enable_numeric_aggfuncs entry), htable)
  | none =>
      let entered := cache_upsert htable aggfn_oid (blank_catalog_entry aggfn_oid)
      match aggfunc_catalog_populate live aggfn_oid with
      | .ok entry =>
          (.ok (aggfunc_entry_usability enable_numeric_aggfuncs entry),
           cache_upsert entered aggfn_oid entry)
      | .error msg =>
          (.error msg, cache_remove entered aggfn_oid)

/-- Device/task class carried in `task_kind` (`DEVKIND__NVIDIA_GPU`,
`DEVKIND__NVIDIA_DPU`, anything else raises in the cost code). -/
inductive TaskKind where
  | gpu
  | dpu
  | other
deriving DecidableEq, Repr

/-- Expression node universe: the node shapes `gpu_preagg.c` inspects or
builds.  `nullExpr` stands for a C NULL node pointer (as produced by
`expression_tree_mutator` when a sub-rewrite returned NULL); `varE` covers
`Var` and `phVar` covers `PlaceHolderVar`; `aggrefE` carries the `Aggref`
fields the module reads (`aggorder`/`aggdistinct` as emptiness flags,
`AGGKIND_IS_ORDERED_SET(aggkind)` as a flag, `aggvariadic`, and the argument
expressions of its target entries); `funcE` is `FuncExpr`, `relabelE` is
`RelabelType`, and `opE` is any other operator-like node with children.
Result types are stored in the nodes so that `exprType` is a projection;
collation fields are not modelled (they are only forwarded, never tested). -/
inductive Expr where
  | nullExpr : Expr
  | varE (varno : Nat) (ty : Oid) : Expr
  | phVar (phid : Nat) (ty : Oid) : Expr
  | constE (ty : Oid) (value : Int) : Expr
  | aggrefE (aggfnoid : Oid) (aggtype : Oid)
      (hasOrder hasDistinct isOrderedSet aggvariadic : Bool)
      (args : List Expr) : Expr
  | funcE (funcid : Oid) (rettype : Oid) (args : List Expr) : Expr
  | relabelE (arg : Expr) (rettype : Oid) : Expr
  | opE (opno : Oid) (rettype : Oid) (args : List Expr) : Expr

/-- `exprType`: the declared result type of a node (0 for a NULL node,
which C would crash on and the module never does). -/
def Expr.ty : Expr → Oid
  | .nullExpr => 0
  | .varE _ t => t
  | .phVar _ t => t
  | .constE t _ => t
  | .aggrefE _ t _ _ _ _ _ => t
  | .funcE _ t _ => t
  | .relabelE _ t => t
  | .opE _ t _ => t

mutual

/-- Structural node equality, the Bool-valued counterpart of PostgreSQL's
`equal()` as used by `list_member` and the grouping-key scan. -/
def exprEq : Expr → Expr → Bool
  | .nullExpr, .nullExpr => true
  | .varE a t, .varE a' t' => a = a' ∧ t = t'
  | .phVar a t, .phVar a' t' => a = a' ∧ t = t'
  | .constE t v, .constE t' v' => t = t' ∧ v = v'
  | .aggrefE f t ho hd os va as, .aggrefE f' t' ho' hd' os' va' as' =>
      f = f' ∧ t = t' ∧ ho = ho' ∧ hd = hd' ∧ os = os' ∧ va = va' ∧
        exprEqList as as'
  | .funcE f t as, .funcE f' t' as' => f = f' ∧ t = t' ∧ exprEqList as as'
  | .relabelE a t, .relabelE a' t' => exprEq a a' ∧ t = t'
  | .opE o t as, .opE o' t' as' => o = o' ∧ t = t' ∧ exprEqList as as'
  | _, _ => false

/-- Pointwise `exprEq` on child lists. -/
def exprEqList : List Expr → List Expr → Bool
  | [], [] => true
  | x :: xs, y :: ys => exprEq x y ∧ exprEqList xs ys
  | _, _ => false

end

/-- `make_expr_typecast`: wraps `expr` so that it yields `target_type`.
Identical or `any` target: unchanged.  Otherwise the `pg_cast` entry decides:
binary coercion inserts a `RelabelType`, function coercion inserts a
`FuncExpr` call of the cast function, and any other cast method raises. -/
def make_expr_typecast (live : LiveCatalog) (expr : Expr) (target_type : Oid) :
    Except String Expr :=
  if target_type = expr.ty ∨ target_type = ANYOID then .ok expr
  else
    match live.castEntry expr.ty target_type with
    | none => .error "cache lookup failed for cast"
    | some cast =>
        if cast.castmethod = 'b' then .ok (.relabelE expr target_type)
        else if cast.castmethod = 'f' then
          .ok (.funcE cast.castfunc target_type [expr])
        else .error "cast-method is not supported in the kernel mode"

/-- Input scan/join `Path` fields the module reads or copies. -/
structure PathC where
  rows : ℚ
  startup_cost : ℚ
  total_cost : ℚ
  parallel_safe : Bool
  parallel_aware : Bool
  parallel_workers : Nat
deriving DecidableEq, Repr

/-- The `pgstromPlanInfo` fields this module reads and extends. -/
structure pgstromPlanInfo where
  groupby_keys : List Expr
  groupby_actions : List KAggAction
  kvars_depth : List Int
  kvars_resno : List Nat
  final_cost : ℚ

/-- The query-tree fields (`root->parse`) the module reads. -/
structure ParseTree where
  groupClause : List Nat
  groupingSets : List Nat
  havingQual : Option Expr

/-- The `CustomPath` produced by `prepend_partial_groupby_custompath`
(the `Path` fields it fills in). -/
structure CustomPathOut where
  rows : ℚ
  startup_cost : ℚ
  total_cost : ℚ
  parallel_safe : Bool
  parallel_aware : Bool
  parallel_workers : Nat
deriving DecidableEq, Repr

/-- Partial path handed to the final aggregation stage: either the bare
partial group-by `CustomPath` or that path wrapped by a `Gather`
(`create_gather_path` with its `total_groups` row estimate). -/
inductive PartPath where
  | custom (cpath : CustomPathOut)
  | gathered (subpath : CustomPathOut) (total_groups : ℚ)

/-- Host-engine facilities consumed through narrow interfaces (spec section 6);
each field is one external collaborator call:
`xpu_expression` is `pgstrom_xpu_expression(expr, task_kind, input_rels_tlist,
NULL)`; `devtype_hash_ok` is `pgstrom_devtype_lookup` succeeding with a
non-NULL `type_hashfunc`; `devtype_equal_ok` is `devtype_lookup_equal_func`
for a type under a collation; `expr_collation` is `exprCollation`;
`function_cost` is the per-call increment applied by `add_function_cost`;
`pathtarget_cost` is `set_pathtarget_cost_width` returning (startup,
per_tuple); the six device cost parameters are the GPU/DPU GUC values and
operator ratios; `work_mem` the GUC; `estimate_hashagg_tablesize`,
`grouping_is_hashable`, `estimate_num_groups` the planner estimators;
`is_simple_rel` is `IS_SIMPLE_REL(input_rel)`; `buildXpuScanPath` and
`custom_path_find_cheapest` produce the input path per parallelism attempt;
`extract_pp_info` is `extract_input_path_params` returning the plan info,
the `input_rels_tlist` handle and the `inner_paths_list` handle. -/
structure HostEnv where
  live : LiveCatalog
  enable_numeric_aggfuncs : Bool
  xpu_expression : Expr → TaskKind → Nat → Bool
  devtype_hash_ok : Oid → Bool
  devtype_equal_ok : Oid → Oid → Bool
  expr_collation : Expr → Oid
  function_cost : Oid → ℚ
  pathtarget_cost : List (Expr × Nat) → ℚ × ℚ
  gpu_operator_cost : ℚ
  gpu_tuple_cost : ℚ
  gpu_operator_ratio : ℚ
  dpu_operator_cost : ℚ
  dpu_tuple_cost : ℚ
  dpu_operator_ratio : ℚ
  work_mem : ℚ
  estimate_hashagg_tablesize : PartPath → ℚ → ℚ
  grouping_is_hashable : List Nat → Bool
  estimate_num_groups : ℚ → ℚ
  is_simple_rel : Bool
  buildXpuScanPath : Bool → Option PathC
  custom_path_find_cheapest : Bool → Option PathC
  extract_pp_info : PathC → pgstromPlanInfo × Nat × Nat

/-- `xpugroupby_build_path_context`, the per-planning-request context.  The
`pgstromPlanInfo` lists the module appends to (`groupby_keys`,
`groupby_actions`, `kvars_depth`, `kvars_resno`, `final_cost`) are inlined as
fields, the three `PathTarget`s become expression/sortgroupref lists named
`target_upper`, `target_partial_tl` and `target_final_tl`, the
`AggClauseCosts` accumulator becomes the two rational fields
`final_clause_trans_cost` / `final_clause_final_cost`, the `PathTarget.cost`
of the partial and final targets become the four `cost_*` fields, and the
process-global resolver hash table is threaded as `cache`. -/
structure BuildCtx where
  device_executable : Bool
  parse : ParseTree
  num_groups : ℚ
  input_path : PathC
  target_upper : List (Expr × Nat)
  target_partial_tl : List (Expr × Nat)
  target_final_tl : List (Expr × Nat)
  final_clause_trans_cost : ℚ
  final_clause_final_cost : ℚ
  groupby_keys : List Expr
  groupby_actions : List KAggAction
  kvars_depth : List Int
  kvars_resno : List Nat
  pp_final_cost : ℚ
  havingQual : Option Expr
  task_kind : TaskKind
  input_rels_tlist : Nat
  inner_paths_list : Nat
  cache : AggCache
  cost_partial_startup : ℚ
  cost_partial_per_tuple : ℚ
  cost_final_startup : ℚ
  cost_final_per_tuple : ℚ

/-- Argument loop of `make_alternative_aggref`: each supplied argument is
cast to the partial function's declared argument type when the types differ,
then must be device executable; a non-executable argument declines the whole
rewrite (`none`), a failed cast lookup raises. -/
def make_alternative_aggref_args (env : HostEnv) (con : BuildCtx) :
    List (Expr × Oid) → Except String (Option (List Expr))
  | [] => .ok (some [])
  | (expr, dest_oid) :: rest =>
      let cast_result :=
        if expr.ty ≠ dest_oid then make_expr_typecast env.live expr dest_oid
        else .ok expr
      match cast_result with
      | .error msg => .error msg
      | .ok expr1 =>
          if ¬ env.xpu_expression expr1 con.task_kind con.input_rels_tlist then
            .ok none
          else
            match make_alternative_aggref_args env con rest with
            | .error msg => .error msg
            | .ok none => .ok none
            | .ok (some exprs) => .ok (some (expr1 :: exprs))

/-- `make_alternative_aggref`: builds the alternative final aggregate for the
supplied `Aggref` and appends the partial-function call (with its encoding
action, in lock-step) to the partial target when not already present.
Declines (`none`) on ORDER BY/DISTINCT, on an ordered-set aggregate, on an
unresolvable aggregate oid and on a non-device-executable argument; the C
`Assert(aggref->aggkind == AGGKIND_NORMAL && !aggref->aggvariadic)` is a
debug-build no-op and is not a run-time check.  Collation fields of the
built nodes are not modelled. -/
def make_alternative_aggref (env : HostEnv) (con : BuildCtx)
    (aggfnoid aggtype : Oid)
    (hasOrder hasDistinct isOrderedSet aggvariadic : Bool)
    (args : List Expr) : Except String (Option Expr × BuildCtx) :=
  if hasOrder ∨ hasDistinct then .ok (none, con)
  else if isOrderedSet then .ok (none, con)
  else
    match aggfunc_catalog_lookup_by_oid env.live env.enable_numeric_aggfuncs
        con.cache aggfnoid with
    | (.error msg, _) => .error msg
    | (.ok none, cache1) => .ok (none, { con with cache := cache1 })
    | (.ok (some aggfn_cat), cache1) =>
        let con1 := { con with cache := cache1 }
        match env.live.procByOid aggfn_cat.partial_func_oid with
        | none => .error "cache lookup failed for function"
        | some proc =>
            match make_alternative_aggref_args env con1
                (args.zip proc.proargtypes) with
            | .error msg => .error msg
            | .ok none => .ok (none, con1)
            | .ok (some partfn_args) =>
                let partfn : Expr :=
                  .funcE aggfn_cat.partial_func_oid
                    aggfn_cat.partial_func_rettype partfn_args
                let con2 :=
                  if con1.target_partial_tl.any (fun te => exprEq te.1 partfn)
                  then con1
                  else
                    { con1 with
                      target_partial_tl := con1.target_partial_tl ++ [(partfn, 0)]
                      groupby_actions :=
                        con1.groupby_actions ++ [aggfn_cat.partial_func_action] }
                match env.live.aggForm aggfn_cat.final_func_oid with
                | none => .error "cache lookup failed for pg_aggregate"
                | some agg =>
                    let aggref_alt : Expr :=
                      .aggrefE aggfn_cat.final_func_oid aggtype
                        false false false false [partfn]
                    let con3 :=
                      if agg.aggtransfn ≠ 0 then
                        { con2 with
                          final_clause_trans_cost :=
                            con2.final_clause_trans_cost +
                              env.function_cost agg.aggtransfn }
                      else con2
                    let con4 :=
                      if agg.aggfinalfn ≠ 0 then
                        { con3 with
                          final_clause_final_cost :=
                            con3.final_clause_final_cost +
                              env.function_cost agg.aggfinalfn }
                      else con3
                    .ok (some aggref_alt, con4)

/-- Grouping-key scan of `replace_expression_by_altfunc`: true when the node
equals (by `equal()`) one of the recorded grouping keys. -/
def is_groupby_key (con : BuildCtx) (node : Expr) : Bool :=
  con.groupby_keys.any (fun key => exprEq node key)

mutual

/-- `replace_expression_by_altfunc`: NULL maps to NULL; an `Aggref` is sent to
`make_alternative_aggref` (failure records `device_executable := false` and
yields NULL); any other node equal to a grouping key is returned verbatim; a
bare `Var`/`PlaceHolderVar` that is not a grouping key raises the internal-
consistency error; everything else recurses through the generic
`expression_tree_mutator`, a failed child becoming a NULL child inside the
rebuilt node. -/
def replace_expression_by_altfunc (env : HostEnv) (con : BuildCtx) :
    Expr → Except String (Option Expr × BuildCtx)
  | .nullExpr => .ok (none, con)
  | .aggrefE f t ho hd os va as =>
      match make_alternative_aggref env con f t ho hd os va as with
      | .error msg => .error msg
      | .ok (none, con1) => .ok (none, { con1 with device_executable := false })
      | .ok (some aggfn, con1) => .ok (some aggfn, con1)
  | .varE v t =>
      if is_groupby_key con (.varE v t) then .ok (some (.varE v t), con)
      else .error "Bug? referenced variable is grouping-key nor its dependent key"
  | .phVar v t =>
      if is_groupby_key con (.phVar v t) then .ok (some (.phVar v t), con)
      else .error "Bug? referenced variable is grouping-key nor its dependent key"
  | .constE t v =>
      if is_groupby_key con (.constE t v) then .ok (some (.constE t v), con)
      else .ok (some (.constE t v), con)
  | .relabelE a t =>
      if is_groupby_key con (.relabelE a t) then .ok (some (.relabelE a t), con)
      else
        match replace_expression_by_altfunc env con a with
        | .error msg => .error msg
        | .ok (r, con1) => .ok (some (.relabelE (r.getD .nullExpr) t), con1)
  | .funcE f t as =>
      if is_groupby_key con (.funcE f t as) then .ok (some (.funcE f t as), con)
      else
        match replace_expression_list_by_altfunc env con as with
        | .error msg => .error msg
        | .ok (as1, con1) => .ok (some (.funcE f t as1), con1)
  | .opE o t as =>
      if is_groupby_key con (.opE o t as) then .ok (some (.opE o t as), con)
      else
        match replace_expression_list_by_altfunc env con as with
        | .error msg => .error msg
        | .ok (as1, con1) => .ok (some (.opE o t as1), con1)

/-- Child-list traversal of the generic mutator, threading the context left
to right; a child whose rewrite yields NULL is kept as a NULL node, exactly
as `expression_tree_mutator` stores the NULL result pointer. -/
def replace_expression_list_by_altfunc (env : HostEnv) (con : BuildCtx) :
    List Expr → Except String (List Expr × BuildCtx)
  | [] => .ok ([], con)
  | x :: xs =>
      match replace_expression_by_altfunc env con x with
      | .error msg => .error msg
      | .ok (r, con1) =>
          match replace_expression_list_by_altfunc env con1 xs with
          | .error msg => .error msg
          | .ok (rs, con2) => .ok (r.getD .nullExpr :: rs, con2)

end

/-- Upper-target scan loop of `xpugroupby_build_path_target`: for each column
(paired with its `sortgroupref`), a grouping key must be device-hashable,
device-comparable under its collation and device executable (any failure
returns `none` = build failure) and is appended to the final target and
recorded with its reference; an `Aggref` is rewritten (decline = build
failure, a type-changing rewrite raises the catalog-inconsistency error) and
appended to the final target; any other column shape is a build failure. -/
def xpugroupby_build_path_target_scan (env : HostEnv) (con : BuildCtx)
    (groupby_keys_refno : List Nat) :
    List (Expr × Nat) → Except String (Option (BuildCtx × List Nat))
  | [] => .ok (some (con, groupby_keys_refno))
  | (expr, sortgroupref) :: rest =>
      if sortgroupref ≠ 0 ∧ con.parse.groupClause ≠ [] ∧
         con.parse.groupClause.contains sortgroupref then
        if ¬ env.devtype_hash_ok expr.ty then .ok none
        else if ¬ env.devtype_equal_ok expr.ty (env.expr_collation expr) then
          .ok none
        else if ¬ env.xpu_expression expr con.task_kind con.input_rels_tlist then
          .ok none
        else
          xpugroupby_build_path_target_scan env
            { con with
              target_final_tl := con.target_final_tl ++ [(expr, sortgroupref)]
              groupby_keys := con.groupby_keys ++ [expr] }
            (groupby_keys_refno ++ [sortgroupref]) rest
      else
        match expr with
        | .aggrefE f t ho hd os va as =>
            match make_alternative_aggref env con f t ho hd os va as with
            | .error msg => .error msg
            | .ok (none, _) => .ok none
            | .ok (some altfn, con1) =>
                if expr.ty ≠ altfn.ty then
                  .error "Bug? XpuGroupBy catalog is not consistent"
                else
                  xpugroupby_build_path_target_scan env
                    { con1 with
                      target_final_tl := con1.target_final_tl ++ [(altfn, 0)] }
                    groupby_keys_refno rest
        | _ => .ok none

/-- Grouping-key attachment loop of `xpugroupby_build_path_target` (the
`forboth` over `groupby_keys` and `groupby_keys_refno`): due to data
alignment on the final KDS tuple, every recorded grouping key is appended to
the partial target after whatever it already holds, with the verbatim `VREF`
action, a kvars depth of -1 and the 1-based resno of the appended column. -/
def xpugroupby_attach_groupby_keys (con : BuildCtx) :
    List (Expr × Nat) → BuildCtx
  | [] => con
  | (key, keyref) :: rest =>
      xpugroupby_attach_groupby_keys
        { con with
          target_partial_tl := con.target_partial_tl ++ [(key, keyref)]
          groupby_actions := con.groupby_actions ++ [KAggAction.vref]
          kvars_depth := con.kvars_depth ++ [(-1 : Int)]
          kvars_resno := con.kvars_resno ++ [con.target_partial_tl.length + 1] }
        rest

/-- The two closing `set_pathtarget_cost_width` calls: records the host cost
accounting of the final and partial targets in the context. -/
def set_pathtarget_cost_width_both (env : HostEnv) (con : BuildCtx) : BuildCtx :=
  let fc := env.pathtarget_cost con.target_final_tl
  let pc := env.pathtarget_cost con.target_partial_tl
  { con with
    cost_final_startup := fc.1
    cost_final_per_tuple := fc.2
    cost_partial_startup := pc.1
    cost_partial_per_tuple := pc.2 }

/-- `xpugroupby_build_path_target`: scans the upper target, then appends the
grouping keys to the partial target, then rewrites the HAVING predicate (a
NULL rewrite result is a build failure), stores it, and computes the target
cost accounting.  Returns `(false, _)` for "do not offer this path". -/
def xpugroupby_build_path_target (env : HostEnv) (con : BuildCtx) :
    Except String (Bool × BuildCtx) :=
  match xpugroupby_build_path_target_scan env con [] con.target_upper with
  | .error msg => .error msg
  | .ok none => .ok (false, con)
  | .ok (some (con1, groupby_keys_refno)) =>
      let con2 := xpugroupby_attach_groupby_keys con1
        (con1.groupby_keys.zip groupby_keys_refno)
      match con2.parse.havingQual with
      | none =>
          .ok (true, set_pathtarget_cost_width_both env
            { con2 with havingQual := none })
      | some hq =>
          match replace_expression_by_altfunc env con2 hq with
          | .error msg => .error msg
          | .ok (none, _) => .ok (false, con2)
          | .ok (some hq1, con3) =>
              .ok (true, set_pathtarget_cost_width_both env
                { con3 with havingQual := some hq1 })

/-- Device cost parameters selected by `task_kind` (GPU operator cost, tuple
cost and operator ratio, or the DPU triple); any other kind raises. -/
def xpu_task_params (env : HostEnv) (task_kind : TaskKind) :
    Except String (ℚ × ℚ × ℚ) :=
  match task_kind with
  | .gpu => .ok (env.gpu_operator_cost, env.gpu_tuple_cost,
                 env.gpu_operator_ratio)
  | .dpu => .ok (env.dpu_operator_cost, env.dpu_tuple_cost,
                 env.dpu_operator_ratio)
  | .other => .error "Bug? unexpected task_kind"

/-- `prepend_partial_groupby_custompath`: assembles the device-side partial
group-by `CustomPath` over the input path with the module's cost model:
startup = input startup + operator cost x number of grouping keys x input
rows + (partial per-tuple cost x input rows + partial startup cost) x device
operator ratio; run = input total - input startup - previously known final
cost; final = device tuple cost x estimated groups, scaled by
(0.5 + workers) when the input runs parallel workers; rows = estimated
groups. -/
def prepend_partial_groupby_custompath (env : HostEnv) (con : BuildCtx) :
    Except String CustomPathOut :=
  match xpu_task_params env con.task_kind with
  | .error msg => .error msg
  | .ok (xpu_operator_cost, xpu_tuple_cost, xpu_operator_ratio) =>
      let input_path := con.input_path
      let startup_cost := input_path.startup_cost
      let run_cost := input_path.total_cost - input_path.startup_cost -
        con.pp_final_cost
      let num_group_keys : ℚ := (con.parse.groupClause.length : ℚ)
      let startup_cost := startup_cost +
        xpu_operator_cost * num_group_keys * input_path.rows
      let startup_cost := startup_cost +
        (con.cost_partial_per_tuple * input_path.rows +
          con.cost_partial_startup) * xpu_operator_ratio
      let final_cost := xpu_tuple_cost * con.num_groups
      let final_cost :=
        if 0 < input_path.parallel_workers then
          final_cost * (1 / 2 + (input_path.parallel_workers : ℚ))
        else final_cost
      .ok { rows := con.num_groups
            startup_cost := startup_cost
            total_cost := startup_cost + run_cost + final_cost
            parallel_safe := input_path.parallel_safe
            parallel_aware := input_path.parallel_aware
            parallel_workers := input_path.parallel_workers }

/-- Final aggregation strategy chosen by `try_add_final_groupby_paths`. -/
inductive AggStrategy where
  | plain
  | hashed
deriving DecidableEq, Repr

/-- One alternative path registered on the grouping relation: the record of a
`create_agg_path` call (`add_path` appends it to the relation's path list). -/
structure AggPathDesc where
  strategy : AggStrategy
  part_path : PartPath
  target : List (Expr × Nat)
  having : Option Expr
  num_groups : ℚ

/-- `try_add_final_groupby_paths`: with no GROUP BY clause a plain
single-group aggregation path is always added; with a GROUP BY clause a
hashed aggregation path is added only when the estimated hash table fits
`work_mem` kilobytes, otherwise nothing is added. -/
def try_add_final_groupby_paths (env : HostEnv) (con : BuildCtx)
    (part_path : PartPath) (pathlist : List AggPathDesc) : List AggPathDesc :=
  if con.parse.groupClause = [] then
    pathlist ++ [⟨.plain, part_path, con.target_final_tl, con.havingQual,
                  con.num_groups⟩]
  else
    let hashTableSz := env.estimate_hashagg_tablesize part_path con.num_groups
    if hashTableSz ≤ env.work_mem * 1024 then
      pathlist ++ [⟨.hashed, part_path, con.target_final_tl, con.havingQual,
                    con.num_groups⟩]
    else pathlist

/-- `__xpupreagg_add_custompath`: builds the context, runs target building
(failure adds nothing), assembles the partial custom path, wraps it in a
Gather for the parallel attempt (abandoning the attempt when the partial path
is not parallel capable) and offers the final aggregation path(s). -/
def __xpupreagg_add_custompath (env : HostEnv) (parse : ParseTree)
    (target_upper : List (Expr × Nat)) (input_path : PathC)
    (try_parallel : Bool) (num_groups : ℚ) (task_kind : TaskKind)
    (pathlist : List AggPathDesc) (cache : AggCache) :
    Except String (List AggPathDesc × AggCache) :=
  let seed := env.extract_pp_info input_path
  let con0 : BuildCtx :=
    { device_executable := true
      parse := parse
      num_groups := num_groups
      input_path := input_path
      target_upper := target_upper
      target_partial_tl := []
      target_final_tl := []
      final_clause_trans_cost := 0
      final_clause_final_cost := 0
      groupby_keys := seed.1.groupby_keys
      groupby_actions := seed.1.groupby_actions
      kvars_depth := seed.1.kvars_depth
      kvars_resno := seed.1.kvars_resno
      pp_final_cost := seed.1.final_cost
      havingQual := none
      task_kind := task_kind
      input_rels_tlist := seed.2.1
      inner_paths_list := seed.2.2
      cache := cache
      cost_partial_startup := 0
      cost_partial_per_tuple := 0
      cost_final_startup := 0
      cost_final_per_tuple := 0 }
  match xpugroupby_build_path_target env con0 with
  | .error msg => .error msg
  | .ok (false, conX) => .ok (pathlist, conX.cache)
  | .ok (true, con1) =>
      match prepend_partial_groupby_custompath env con1 with
      | .error msg => .error msg
      | .ok cpath =>
          if try_parallel then
            if cpath.parallel_aware ∧ 0 < cpath.parallel_workers then
              let total_groups := cpath.rows * (cpath.parallel_workers : ℚ)
              .ok (try_add_final_groupby_paths env con1
                     (PartPath.gathered cpath total_groups) pathlist,
                   con1.cache)
            else
              .ok (pathlist, con1.cache)
          else
            .ok (try_add_final_groupby_paths env con1
                   (PartPath.custom cpath) pathlist,
                 con1.cache)

/-- One iteration of the `try_parallel` loop of `xpupreagg_add_custompath`:
pick the input path (scan path for a simple relation, cheapest custom path
otherwise); no input path means nothing is attempted; the group count is
estimated only when a GROUP BY clause exists (else 1.0). -/
def xpupreagg_try_one (env : HostEnv) (parse : ParseTree)
    (target_upper : List (Expr × Nat)) (task_kind : TaskKind)
    (try_parallel : Bool) (st : List AggPathDesc × AggCache) :
    Except String (List AggPathDesc × AggCache) :=
  let input_path? :=
    if env.is_simple_rel then env.buildXpuScanPath try_parallel
    else env.custom_path_find_cheapest try_parallel
  match input_path? with
  | none => .ok st
  | some input_path =>
      let num_groups : ℚ :=
        if parse.groupClause ≠ [] then env.estimate_num_groups input_path.rows
        else 1
      __xpupreagg_add_custompath env parse target_upper input_path
        try_parallel num_groups task_kind st.1 st.2

/-- `xpupreagg_add_custompath`, the public entry point: bails out before any
other work when the query has grouping sets or a non-hashable grouping
clause, leaving the path list and the resolver cache untouched; otherwise
runs the serial attempt and then the parallel attempt. -/
def xpupreagg_add_custompath (env : HostEnv) (parse : ParseTree)
    (target_upper : List (Expr × Nat)) (task_kind : TaskKind)
    (pathlist : List AggPathDesc) (cache : AggCache) :
    Except String (List AggPathDesc × AggCache) :=
  if parse.groupingSets ≠ [] ∨ ¬ env.grouping_is_hashable parse.groupClause then
    .ok (pathlist, cache)
  else
    match xpupreagg_try_one env parse target_upper task_kind false
        (pathlist, cache) with
    | .error msg => .error msg
    | .ok st1 => xpupreagg_try_one env parse target_upper task_kind true st1

/-- Concrete live proc catalog used by the witnesses: pg_catalog `count()`
(oid 2803), pgstrom `nrows()` (9001), the pgstrom final aggregate `sum(int8)`
(9002), and an aggregate 4242 living outside the trusted namespace. -/
def procStd : Oid → Option PgProc := fun oid =>
  if oid = 2803 then some ⟨"count", 11, 0, [], 20⟩
  else if oid = 9001 then some ⟨"nrows", 16384, 0, [], 20⟩
  else if oid = 9002 then some ⟨"sum", 16384, 1, [20], 20⟩
  else if oid = 4242 then some ⟨"weird_agg", 99, 0, [], 20⟩
  else none

/-- Concrete live catalog (pgstrom namespace oid 16384) resolving the
`count()` static-catalog row. -/
def liveStd : LiveCatalog :=
  { pgstrom_namespace := some 16384
    typeByName := fun n => if n = "int8".data then some 20 else none
    typeName := fun t => if t = 20 then some "int8".data else none
    procByNameArgs := fun n args ns =>
      if n = "nrows".data ∧ args = [] ∧ ns = 16384 then some 9001
      else if n = "sum".data ∧ args = [20] ∧ ns = 16384 then some 9002
      else none
    procByOid := procStd
    isAggregate := fun oid => oid == 9002
    aggForm := fun oid => if oid = 9002 then some ⟨20, 0, 0⟩ else none
    castEntry := fun _ _ => none }

/-- A live catalog in which every proc lookup fails, so that cache population
raises an exception. -/
def liveNoProc : LiveCatalog := { liveStd with procByOid := fun _ => none }

/-- Concrete host environment for the witnesses: every device capability
holds, cost parameters are 1, targets cost nothing. -/
def envStd : HostEnv :=
  { live := liveStd
    enable_numeric_aggfuncs := true
    xpu_expression := fun _ _ _ => true
    devtype_hash_ok := fun _ => true
    devtype_equal_ok := fun _ _ => true
    expr_collation := fun _ => 0
    function_cost := fun _ => 0
    pathtarget_cost := fun _ => (0, 0)
    gpu_operator_cost := 1
    gpu_tuple_cost := 1
    gpu_operator_ratio := 1
    dpu_operator_cost := 1
    dpu_tuple_cost := 1
    dpu_operator_ratio := 1
    work_mem := 1024
    estimate_hashagg_tablesize := fun _ _ => 0
    grouping_is_hashable := fun _ => true
    estimate_num_groups := fun r => r
    is_simple_rel := true
    buildXpuScanPath := fun _ => none
    custom_path_find_cheapest := fun _ => none
    extract_pp_info := fun _ => (⟨[], [], [], [], 0⟩, 0, 0) }

/-- Concrete input path: 100 rows, startup cost 5, total cost 50, serial. -/
def pathStd : PathC := ⟨100, 5, 50, true, true, 0⟩

/-- Base planning context over `pathStd` with empty targets and cache. -/
def conBase : BuildCtx :=
  { device_executable := true
    parse := ⟨[], [], none⟩
    num_groups := 10
    input_path := pathStd
    target_upper := []
    target_partial_tl := []
    target_final_tl := []
    final_clause_trans_cost := 0
    final_clause_final_cost := 0
    groupby_keys := []
    groupby_actions := []
    kvars_depth := []
    kvars_resno := []
    pp_final_cost := 0
    havingQual := none
    task_kind := .gpu
    input_rels_tlist := 0
    inner_paths_list := 0
    cache := []
    cost_partial_startup := 0
    cost_partial_per_tuple := 0
    cost_final_startup := 0
    cost_final_per_tuple := 0 }

/-- `count(*)`: a zero-argument plain `Aggref` on oid 2803. -/
def countAggref : Expr := .aggrefE 2803 20 false false false false []

/-- Scenario for the grouping-key placement claim: one grouping key in the
select list (sortgroupref 1) and a `count(*)` occurring only in the HAVING
predicate (`HAVING count(*) > 10` shape). -/
def conC1 : BuildCtx :=
  { conBase with
    parse := ⟨[1], [], some (.opE 521 16 [countAggref, .constE 23 10])⟩
    target_upper := [(.varE 1 23, 1)] }

/-- Scenario for the HAVING failure claim: `SELECT count(*) ... HAVING
weird_agg() > 10` where oid 4242 is not resolvable (outside pg_catalog), so
the aggregate nested inside the HAVING expression cannot be rewritten. -/
def conC3 : BuildCtx :=
  { conBase with
    parse := ⟨[], [],
      some (.opE 521 16 [.aggrefE 4242 20 false false false false [],
                         .constE 23 10])⟩
    target_upper := [(countAggref, 0)] }

/-- Projection of a target-build result onto (partial target, action list);
`none` when the build failed or raised. -/
def bp_partial_result (r : Except String (Bool × BuildCtx)) :
    Option (List (Expr × Nat) × List KAggAction) :=
  match r with
  | .ok (true, con) => some (con.target_partial_tl, con.groupby_actions)
  | _ => none

/-- Projection of a target-build result onto (returned flag,
`device_executable`, rewritten HAVING); `none` when the build raised. -/
def bp_flags_having (r : Except String (Bool × BuildCtx)) :
    Option (Bool × Bool × Option Expr) :=
  match r with
  | .ok (flag, con) => some (flag, con.device_executable, con.havingQual)
  | .error _ => none

/-- Projection of a rewrite result onto the returned node (`none` when the
rewrite raised). -/
def rewrite_result (r : Except String (Option Expr × BuildCtx)) :
    Option (Option Expr) :=
  match r with
  | .ok (node, _) => some node
  | .error _ => none

/-- Extracts the context of a successful target build (fallback otherwise). -/
def build_ctx_of (fallback : BuildCtx) (r : Except String (Bool × BuildCtx)) :
    BuildCtx :=
  match r with
  | .ok (_, con) => con
  | .error _ => fallback

/-- The context produced by the successful build over `conC1`. -/
def conC1_final : BuildCtx :=
  build_ctx_of conC1 (xpugroupby_build_path_target envStd conC1)

/-- Extracts a successful custom path (fallback otherwise). -/
def cpath_of (r : Except String CustomPathOut) : CustomPathOut :=
  match r with
  | .ok cpath => cpath
  | .error _ => ⟨0, 0, 0, false, false, 0⟩

/-- The partial custom path assembled over `conBase`. -/
def cpathC7 : CustomPathOut :=
  cpath_of (prepend_partial_groupby_custompath envStd conBase)

/-- `conBase` with the input-path row count replaced. -/
def conRows (r : ℚ) : BuildCtx :=
  { conBase with input_path := { pathStd with rows := r } }

/-- Partial custom path over `conRows 0`. -/
def cpathC8a : CustomPathOut :=
  cpath_of (prepend_partial_groupby_custompath envStd (conRows 0))

/-- Partial custom path over `conRows 1`. -/
def cpathC8b : CustomPathOut :=
  cpath_of (prepend_partial_groupby_custompath envStd (conRows 1))

/-- A valid, numeric-aware cached resolver entry (shape of the `avg(numeric)`
resolution) used by the feature-toggle witnesses. -/
def entryNumericC9 : aggfunc_catalog_entry :=
  ⟨5555, 1, 2, 701, 1, .psum_fp, true, true⟩

/-- A resolver cache holding `entryNumericC9`. -/
def cacheC9 : AggCache := [(5555, entryNumericC9)]

/-- The cache state after the resolver declines oid 4242 (used to discharge
the resolver-decline hypothesis). -/
def cacheC6 : AggCache :=
  (aggfunc_catalog_lookup_by_oid liveStd true [] 4242).2

/-- Extracts a successful resolver-validation entry (fallback otherwise). -/
def aggentry_of (fallback : aggfunc_catalog_entry)
    (r : Except String aggfunc_catalog_entry) : aggfunc_catalog_entry :=
  match r with
  | .ok entry => entry
  | .error _ => fallback

/-- The entry produced by resolving the `count()` partial function. -/
def eC2 : aggfunc_catalog_entry :=
  aggentry_of (blank_catalog_entry 0)
    (__aggfunc_resolve_partial_func liveStd (blank_catalog_entry 2803)
      "s:nrows()" .nrows_any)

/-- The entry produced by then resolving the `count()` final function. -/
def eC2f : aggfunc_catalog_entry :=
  aggentry_of (blank_catalog_entry 0)
    (__aggfunc_resolve_final_func liveStd eC2 "s:sum(int8)" 20)

/-- Lock-step extension between two build contexts: the partial target and
the action list have each grown by suffixes of equal length (so every
appended partial column got its action at the same ordinal position), and
the recorded grouping keys are unchanged. -/
def tp_lockstep_ext (c c' : BuildCtx) : Prop :=
  (∃ d a, c'.target_partial_tl = c.target_partial_tl ++ d ∧
          c'.groupby_actions = c.groupby_actions ++ a ∧
          d.length = a.length) ∧
  c'.groupby_keys = c.groupby_keys ∧
  c'.parse = c.parse

theorem cache_search_remove (htable : AggCache) (aggfn_oid : Oid) :
    cache_search (cache_remove htable aggfn_oid) aggfn_oid = none := by
  induction htable with
  | nil => rfl
  | cons kv rest ih =>
      by_cases hk : kv.1 = aggfn_oid
      · simpa [cache_remove, hk] using ih
      · simpa [cache_remove, cache_search, hk] using ih

/-- Claim C4: when populating a new resolver-cache entry raises, the
half-built entry is removed from the cache before the error propagates, so
the returned cache no longer holds the identifier. -/
theorem C4_population_failure_removes_entry
    (live : LiveCatalog) (enable_numeric_aggfuncs : Bool)
    (htable : AggCache) (aggfn_oid : Oid) (msg : String) (htable' : AggCache)
    (h : aggfunc_catalog_lookup_by_oid live enable_numeric_aggfuncs htable
           aggfn_oid = (.error msg, htable')) :
    cache_search htable' aggfn_oid = none := by
  unfold aggfunc_catalog_lookup_by_oid at h
  cases hs : cache_search htable aggfn_oid with
  | some entry => rw [hs] at h; simp at h
  | none =>
      rw [hs] at h
      cases hp : aggfunc_catalog_populate live aggfn_oid with
      | ok entry => rw [hp] at h; simp at h
      | error m =>
          rw [hp] at h
          simp only [Prod.mk.injEq] at h
          rw [← h.2]
          exact cache_search_remove _ _

theorem C4_witness :
    aggfunc_catalog_lookup_by_oid liveNoProc true [] 777 =
      (.error "cache lookup failed for function", []) ∧
    cache_search ([] : AggCache) 777 = none :=
  ⟨rfl, C4_population_failure_removes_entry liveNoProc true [] 777
    "cache lookup failed for function" [] rfl⟩

/-- Claim C9: a cached valid numeric-aware entry is returned as unusable
(`none`) when the numeric-aggregates toggle is off and as usable when it is
on, while the cache itself is unchanged by both lookups — the toggle is
consulted at lookup time on every call. -/
theorem C9_numeric_toggle_checked_at_lookup
    (live : LiveCatalog) (htable : AggCache) (aggfn_oid : Oid)
    (entry : aggfunc_catalog_entry)
    (hs : cache_search htable aggfn_oid = some entry)
    (hv : entry.is_valid_entry = true)
    (hn : entry.numeric_aware = true) :
    aggfunc_catalog_lookup_by_oid live false htable aggfn_oid =
      (.ok none, htable) ∧
    aggfunc_catalog_lookup_by_oid live true htable aggfn_oid =
      (.ok (some entry), htable) := by
  constructor <;>
    simp [aggfunc_catalog_lookup_by_oid, hs, aggfunc_entry_usability, hv, hn]

theorem C9_witness :
    cache_search cacheC9 5555 = some entryNumericC9 ∧
    entryNumericC9.is_valid_entry = true ∧
    entryNumericC9.numeric_aware = true ∧
    aggfunc_catalog_lookup_by_oid liveStd false cacheC9 5555 =
      (.ok none, cacheC9) ∧
    aggfunc_catalog_lookup_by_oid liveStd true cacheC9 5555 =
      (.ok (some entryNumericC9), cacheC9) := by
  refine ⟨rfl, rfl, rfl, ?_⟩
  exact C9_numeric_toggle_checked_at_lookup liveStd cacheC9 5555
    entryNumericC9 rfl rfl rfl

/-- Claim C5: an aggregate call carrying ORDER BY, DISTINCT or an ordered-set
modifier makes the rewriter decline (`none`) with the context untouched and
without raising any error. -/
theorem C5_order_distinct_declines
    (env : HostEnv) (con : BuildCtx) (aggfnoid aggtype : Oid)
    (hasOrder hasDistinct isOrderedSet aggvariadic : Bool) (args : List Expr)
    (h : hasOrder = true ∨ hasDistinct = true ∨ isOrderedSet = true) :
    make_alternative_aggref env con aggfnoid aggtype hasOrder hasDistinct
      isOrderedSet aggvariadic args = .ok (none, con) := by
  rcases h with h | h | h <;> subst h <;> simp [make_alternative_aggref]

theorem C5_witness :
    (true = true ∨ false = true ∨ false = true) ∧
    make_alternative_aggref envStd conBase 2803 20 true false false false [] =
      .ok (none, conBase) :=
  ⟨Or.inl rfl,
   C5_order_distinct_declines envStd conBase 2803 20 true false false false []
     (Or.inl rfl)⟩

/-- Claim C10: with grouping sets present or a non-hashable grouping clause,
the public entry point returns with the relation's path list and the
resolver cache exactly as given. -/
theorem C10_bailout_leaves_state_unchanged
    (env : HostEnv) (parse : ParseTree) (target_upper : List (Expr × Nat))
    (task_kind : TaskKind) (pathlist : List AggPathDesc) (cache : AggCache)
    (h : parse.groupingSets ≠ [] ∨ ¬ env.grouping_is_hashable parse.groupClause) :
    xpupreagg_add_custompath env parse target_upper task_kind pathlist cache =
      .ok (pathlist, cache) := by
  unfold xpupreagg_add_custompath
  rw [if_pos h]

theorem C10_witness :
    ((⟨[], [1], none⟩ : ParseTree).groupingSets ≠ [] ∨
      ¬ envStd.grouping_is_hashable (⟨[], [1], none⟩ : ParseTree).groupClause) ∧
    xpupreagg_add_custompath envStd ⟨[], [1], none⟩ [] .gpu [] [] =
      .ok ([], []) :=
  ⟨Or.inl (by simp),
   C10_bailout_leaves_state_unchanged envStd ⟨[], [1], none⟩ [] .gpu [] []
     (Or.inl (by simp))⟩

theorem prepend_partial_groupby_custompath_spec
    (env : HostEnv) (con : BuildCtx) (out : CustomPathOut)
    (oc tc xr : ℚ)
    (hp : xpu_task_params env con.task_kind = .ok (oc, tc, xr))
    (h : prepend_partial_groupby_custompath env con = .ok out) :
    out.rows = con.num_groups ∧
    out.startup_cost = con.input_path.startup_cost
      + oc * (con.parse.groupClause.length : ℚ) * con.input_path.rows
      + (con.cost_partial_per_tuple * con.input_path.rows
          + con.cost_partial_startup) * xr ∧
    out.total_cost = out.startup_cost
      + (con.input_path.total_cost - con.input_path.startup_cost
          - con.pp_final_cost)
      + (if 0 < con.input_path.parallel_workers
         then tc * con.num_groups
                * (1 / 2 + (con.input_path.parallel_workers : ℚ))
         else tc * con.num_groups) ∧
    out.parallel_workers = con.input_path.parallel_workers := by
  unfold prepend_partial_groupby_custompath at h
  rw [hp] at h
  simp only [Except.ok.injEq] at h
  subst h
  refine ⟨rfl, rfl, ?_, rfl⟩
  by_cases hw : 0 < con.input_path.parallel_workers
  · simp [hw]
  · simp [hw]

/-- Claim C7: the assembler's costs satisfy the stated model: startup cost is
input startup plus device operator cost times grouping keys times input rows
plus the operator-ratio-scaled partial-target cost; run cost is input total
minus input startup minus the previously known final cost; final cost is the
device tuple cost times the estimated groups, scaled by (0.5 + workers) for
a parallel input; total = startup + run + final; rows = estimated groups. -/
theorem C7_partial_path_cost_model
    (env : HostEnv) (con : BuildCtx) (out : CustomPathOut)
    (oc tc xr : ℚ)
    (hp : xpu_task_params env con.task_kind = .ok (oc, tc, xr))
    (h : prepend_partial_groupby_custompath env con = .ok out) :
    out.rows = con.num_groups ∧
    out.startup_cost = con.input_path.startup_cost
      + oc * (con.parse.groupClause.length : ℚ) * con.input_path.rows
      + (con.cost_partial_per_tuple * con.input_path.rows
          + con.cost_partial_startup) * xr ∧
    out.total_cost = out.startup_cost
      + (con.input_path.total_cost - con.input_path.startup_cost
          - con.pp_final_cost)
      + (if 0 < con.input_path.parallel_workers
         then tc * con.num_groups
                * (1 / 2 + (con.input_path.parallel_workers : ℚ))
         else tc * con.num_groups) := by
  obtain ⟨h1, h2, h3, _⟩ := prepend_partial_groupby_custompath_spec
    env con out oc tc xr hp h
  exact ⟨h1, h2, h3⟩

theorem C7_witness :
    xpu_task_params envStd conBase.task_kind = .ok (1, 1, 1) ∧
    prepend_partial_groupby_custompath envStd conBase = .ok cpathC7 ∧
    (cpathC7.rows = conBase.num_groups ∧
     cpathC7.startup_cost = conBase.input_path.startup_cost
       + 1 * (conBase.parse.groupClause.length : ℚ) * conBase.input_path.rows
       + (conBase.cost_partial_per_tuple * conBase.input_path.rows
           + conBase.cost_partial_startup) * 1 ∧
     cpathC7.total_cost = cpathC7.startup_cost
       + (conBase.input_path.total_cost - conBase.input_path.startup_cost
           - conBase.pp_final_cost)
       + (if 0 < conBase.input_path.parallel_workers
          then 1 * conBase.num_groups
                 * (1 / 2 + (conBase.input_path.parallel_workers : ℚ))
          else 1 * conBase.num_groups)) :=
  ⟨rfl, rfl, C7_partial_path_cost_model envStd conBase cpathC7 1 1 1 rfl rfl⟩

/-- Claim C8: with non-negative device operator cost, operator ratio and
partial-target per-tuple cost, raising only the input row count never
decreases the computed startup cost or total cost of the partial path. -/
theorem C8_cost_monotone_in_rows
    (env : HostEnv) (con : BuildCtx) (r1 r2 oc tc xr : ℚ)
    (o1 o2 : CustomPathOut)
    (hp : xpu_task_params env con.task_kind = .ok (oc, tc, xr))
    (hoc : 0 ≤ oc) (hxr : 0 ≤ xr) (hpt : 0 ≤ con.cost_partial_per_tuple)
    (hr : r1 ≤ r2)
    (h1 : prepend_partial_groupby_custompath env
            { con with input_path := { con.input_path with rows := r1 } }
          = .ok o1)
    (h2 : prepend_partial_groupby_custompath env
            { con with input_path := { con.input_path with rows := r2 } }
          = .ok o2) :
    o1.startup_cost ≤ o2.startup_cost ∧ o1.total_cost ≤ o2.total_cost := by
  obtain ⟨e1r, e1s, e1t, _⟩ := prepend_partial_groupby_custompath_spec
    env { con with input_path := { con.input_path with rows := r1 } }
    o1 oc tc xr hp h1
  obtain ⟨e2r, e2s, e2t, _⟩ := prepend_partial_groupby_custompath_spec
    env { con with input_path := { con.input_path with rows := r2 } }
    o2 oc tc xr hp h2
  dsimp only at e1s e1t e2s e2t
  have hK : (0 : ℚ) ≤ (con.parse.groupClause.length : ℚ) := Nat.cast_nonneg _
  have hs : o1.startup_cost ≤ o2.startup_cost := by
    rw [e1s, e2s]
    have h1 : oc * (con.parse.groupClause.length : ℚ) * r1
        ≤ oc * (con.parse.groupClause.length : ℚ) * r2 :=
      mul_le_mul_of_nonneg_left hr (mul_nonneg hoc hK)
    have h2 : (con.cost_partial_per_tuple * r1 + con.cost_partial_startup) * xr
        ≤ (con.cost_partial_per_tuple * r2 + con.cost_partial_startup) * xr :=
      mul_le_mul_of_nonneg_right
        (add_le_add_right (mul_le_mul_of_nonneg_left hr hpt) _) hxr
    linarith
  refine ⟨hs, ?_⟩
  rw [e1t, e2t]
  linarith

theorem C8_witness :
    xpu_task_params envStd conBase.task_kind = .ok (1, 1, 1) ∧
    (0 : ℚ) ≤ 1 ∧ (0 : ℚ) ≤ conBase.cost_partial_per_tuple ∧ (0 : ℚ) ≤ 1 ∧
    prepend_partial_groupby_custompath envStd
      { conBase with input_path := { conBase.input_path with rows := 0 } }
      = .ok cpathC8a ∧
    prepend_partial_groupby_custompath envStd
      { conBase with input_path := { conBase.input_path with rows := 1 } }
      = .ok cpathC8b ∧
    cpathC8a.startup_cost ≤ cpathC8b.startup_cost ∧
    cpathC8a.total_cost ≤ cpathC8b.total_cost :=
  ⟨rfl, zero_le_one, le_rfl, zero_le_one, rfl, rfl,
   C8_cost_monotone_in_rows envStd conBase 0 1 1 1 1 cpathC8a cpathC8b
     rfl zero_le_one zero_le_one le_rfl zero_le_one rfl rfl⟩

theorem __aggfunc_resolve_partial_func_ok
    (live : LiveCatalog) (entry : aggfunc_catalog_entry) (sig : String)
    (act : KAggAction) (e : aggfunc_catalog_entry)
    (h : __aggfunc_resolve_partial_func live entry sig act = .ok e) :
    kagg_action_requirements act =
      .ok (e.partial_func_nargs, e.partial_func_rettype) ∧
    e.partial_func_action = act ∧
    ∃ p, live.procByOid e.partial_func_oid = some p ∧
      p.prorettype = e.partial_func_rettype ∧
      p.pronargs = e.partial_func_nargs := by
  unfold __aggfunc_resolve_partial_func at h
  cases hsig : __aggfunc_resolve_func_signature live sig with
  | error m => rw [hsig] at h; exact Except.noConfusion h
  | ok func_oid =>
      rw [hsig] at h
      dsimp only at h
      cases hreq : kagg_action_requirements act with
      | error m => rw [hreq] at h; exact Except.noConfusion h
      | ok nt =>
          obtain ⟨n, t⟩ := nt
          rw [hreq] at h
          dsimp only at h
          cases hproc : live.procByOid func_oid with
          | none =>
              simp only [get_func_rettype, hproc] at h
              exact Except.noConfusion h
          | some p =>
              simp only [get_func_rettype, get_func_nargs, hproc] at h
              split at h
              · exact Except.noConfusion h
              · rename_i hcond
                simp only [Except.ok.injEq] at h
                subst h
                push_neg at hcond
                obtain ⟨ht, hn⟩ := hcond
                constructor
                · dsimp only; rw [ht, hn]
                · exact ⟨rfl, p, hproc, rfl, rfl⟩

theorem __aggfunc_resolve_partial_func_mismatch
    (live : LiveCatalog) (entry : aggfunc_catalog_entry) (sig : String)
    (act : KAggAction) (func_oid : Oid) (n : Nat) (t : Oid) (p : PgProc)
    (hsig : __aggfunc_resolve_func_signature live sig = .ok func_oid)
    (hreq : kagg_action_requirements act = .ok (n, t))
    (hproc : live.procByOid func_oid = some p)
    (hmm : p.prorettype ≠ t ∨ p.pronargs ≠ n) :
    __aggfunc_resolve_partial_func live entry sig act =
      .error "Catalog curruption? partial function mismatch" := by
  unfold __aggfunc_resolve_partial_func
  rw [hsig]
  dsimp only
  rw [hreq]
  dsimp only
  simp only [get_func_rettype, get_func_nargs, hproc]
  split
  · rfl
  · rename_i hcond
    push_neg at hcond
    exfalso
    rcases hmm with hmm | hmm
    · exact hmm hcond.1
    · exact hmm hcond.2

theorem __aggfunc_resolve_final_func_ok
    (live : LiveCatalog) (entry : aggfunc_catalog_entry) (sig : String)
    (agg_rettype : Oid) (e : aggfunc_catalog_entry)
    (h : __aggfunc_resolve_final_func live entry sig agg_rettype = .ok e) :
    live.isAggregate e.final_func_oid = true ∧
    ∃ p, live.procByOid e.final_func_oid = some p ∧
      p.prorettype = agg_rettype ∧ p.pronargs = 1 ∧
      p.proargtypes = [entry.partial_func_rettype] := by
  unfold __aggfunc_resolve_final_func at h
  cases hsig : __aggfunc_resolve_func_signature live sig with
  | error m => rw [hsig] at h; exact Except.noConfusion h
  | ok func_oid =>
      rw [hsig] at h
      dsimp only at h
      split at h
      · exact Except.noConfusion h
      · rename_i hA
        cases hproc : live.procByOid func_oid with
        | none =>
            simp only [get_func_rettype, hproc] at h
            exact Except.noConfusion h
        | some p =>
            simp only [get_func_rettype, hproc] at h
            split at h
            · exact Except.noConfusion h
            · rename_i hret
              split at h
              · exact Except.noConfusion h
              · rename_i hcond
                simp only [Except.ok.injEq] at h
                subst h
                push_neg at hret hcond
                obtain ⟨h1, h2, h3⟩ := hcond
                obtain ⟨a, ha⟩ := List.length_eq_one.mp h2
                rw [ha] at h3
                simp only [List.headD_cons] at h3
                exact ⟨not_not.mp hA, p, hproc, hret, h1, by rw [ha, h3]⟩

theorem __aggfunc_resolve_final_func_mismatch
    (live : LiveCatalog) (entry : aggfunc_catalog_entry) (sig : String)
    (agg_rettype : Oid) (func_oid : Oid) (p : PgProc)
    (hsig : __aggfunc_resolve_func_signature live sig = .ok func_oid)
    (hproc : live.procByOid func_oid = some p)
    (hmm : live.isAggregate func_oid = false ∨ p.prorettype ≠ agg_rettype ∨
           p.pronargs ≠ 1 ∨ p.proargtypes.length ≠ 1 ∨
           p.proargtypes.headD 0 ≠ entry.partial_func_rettype) :
    __aggfunc_resolve_final_func live entry sig agg_rettype =
      .error "Catalog corruption? final function mismatch" := by
  unfold __aggfunc_resolve_final_func
  rw [hsig]
  dsimp only
  split
  · rfl
  · rename_i hA
    simp only [get_func_rettype, hproc]
    split
    · rfl
    · rename_i hret
      split
      · rfl
      · rename_i hcond
        exfalso
        push_neg at hret hcond
        rcases hmm with hmm | hmm | hmm | hmm | hmm
        · exact absurd (not_not.mp hA) (by simp [hmm])
        · exact hmm hret
        · exact hmm hcond.1
        · exact hmm hcond.2.1
        · exact hmm hcond.2.2

/-- Claim C2: for a signature matching a static-catalog entry, the resolver
verifies the live partial function against the encoding action's fixed
expectations (0 arguments and int8 for row-count-any; int8 for conditional
count and integer sum; float8 for float sum; bytea for min/max/avg/stddev;
2 arguments and bytea for covariance), and verifies that the final function
is an aggregate with exactly one argument of the partial function's return
type returning the original aggregate's return type; every mismatch raises a
fatal error instead of returning a not-resolvable result. -/
theorem C2_resolver_validates_against_action_expectations :
    (kagg_action_requirements .nrows_any = .ok (0, INT8OID)) ∧
    (kagg_action_requirements .nrows_cond = .ok (1, INT8OID)) ∧
    (kagg_action_requirements .psum_int = .ok (1, INT8OID)) ∧
    (kagg_action_requirements .psum_fp = .ok (1, FLOAT8OID)) ∧
    (kagg_action_requirements .pmin_int = .ok (1, BYTEAOID)) ∧
    (kagg_action_requirements .pmin_fp = .ok (1, BYTEAOID)) ∧
    (kagg_action_requirements .pmax_int = .ok (1, BYTEAOID)) ∧
    (kagg_action_requirements .pmax_fp = .ok (1, BYTEAOID)) ∧
    (kagg_action_requirements .pavg_int = .ok (1, BYTEAOID)) ∧
    (kagg_action_requirements .pavg_fp = .ok (1, BYTEAOID)) ∧
    (kagg_action_requirements .stddev = .ok (1, BYTEAOID)) ∧
    (kagg_action_requirements .covar = .ok (2, BYTEAOID)) ∧
    (∀ (live : LiveCatalog) (entry : aggfunc_catalog_entry) (sig : String)
       (act : KAggAction) (e : aggfunc_catalog_entry),
       __aggfunc_resolve_partial_func live entry sig act = .ok e →
       kagg_action_requirements act =
         .ok (e.partial_func_nargs, e.partial_func_rettype) ∧
       e.partial_func_action = act ∧
       ∃ p, live.procByOid e.partial_func_oid = some p ∧
         p.prorettype = e.partial_func_rettype ∧
         p.pronargs = e.partial_func_nargs) ∧
    (∀ (live : LiveCatalog) (entry : aggfunc_catalog_entry) (sig : String)
       (act : KAggAction) (func_oid : Oid) (n : Nat) (t : Oid) (p : PgProc),
       __aggfunc_resolve_func_signature live sig = .ok func_oid →
       kagg_action_requirements act = .ok (n, t) →
       live.procByOid func_oid = some p →
       p.prorettype ≠ t ∨ p.pronargs ≠ n →
       __aggfunc_resolve_partial_func live entry sig act =
         .error "Catalog curruption? partial function mismatch") ∧
    (∀ (live : LiveCatalog) (entry : aggfunc_catalog_entry) (sig : String)
       (agg_rettype : Oid) (e : aggfunc_catalog_entry),
       __aggfunc_resolve_final_func live entry sig agg_rettype = .ok e →
       live.isAggregate e.final_func_oid = true ∧
       ∃ p, live.procByOid e.final_func_oid = some p ∧
         p.prorettype = agg_rettype ∧ p.pronargs = 1 ∧
         p.proargtypes = [entry.partial_func_rettype]) ∧
    (∀ (live : LiveCatalog) (entry : aggfunc_catalog_entry) (sig : String)
       (agg_rettype : Oid) (func_oid : Oid) (p : PgProc),
       __aggfunc_resolve_func_signature live sig = .ok func_oid →
       live.procByOid func_oid = some p →
       (live.isAggregate func_oid = false ∨ p.prorettype ≠ agg_rettype ∨
        p.pronargs ≠ 1 ∨ p.proargtypes.length ≠ 1 ∨
        p.proargtypes.headD 0 ≠ entry.partial_func_rettype) →
       __aggfunc_resolve_final_func live entry sig agg_rettype =
         .error "Catalog corruption? final function mismatch") :=
  ⟨rfl, rfl, rfl, rfl, rfl, rfl, rfl, rfl, rfl, rfl, rfl, rfl,
   __aggfunc_resolve_partial_func_ok,
   __aggfunc_resolve_partial_func_mismatch,
   __aggfunc_resolve_final_func_ok,
   __aggfunc_resolve_final_func_mismatch⟩

theorem C2_witness :
    __aggfunc_resolve_partial_func liveStd (blank_catalog_entry 2803)
      "s:nrows()" .nrows_any = .ok eC2 ∧
    kagg_action_requirements .nrows_any =
      .ok (eC2.partial_func_nargs, eC2.partial_func_rettype) ∧
    __aggfunc_resolve_final_func liveStd eC2 "s:sum(int8)" 20 = .ok eC2f ∧
    liveStd.isAggregate eC2f.final_func_oid = true := by
  have h := C2_resolver_validates_against_action_expectations
  obtain ⟨-, -, -, -, -, -, -, -, -, -, -, -, hok, -, hfok, -⟩ := h
  refine ⟨rfl, ?_, rfl, ?_⟩
  · exact (hok liveStd (blank_catalog_entry 2803) "s:nrows()" .nrows_any
      eC2 rfl).1
  · exact (hfok liveStd eC2 "s:sum(int8)" 20 eC2f rfl).1

theorem tp_lockstep_ext_refl (c : BuildCtx) : tp_lockstep_ext c c :=
  ⟨⟨[], [], by simp, by simp, rfl⟩, rfl, rfl⟩

theorem tp_lockstep_ext_trans {a b c : BuildCtx}
    (h1 : tp_lockstep_ext a b) (h2 : tp_lockstep_ext b c) :
    tp_lockstep_ext a c := by
  obtain ⟨⟨d1, a1, e1, e2, e3⟩, k1, q1⟩ := h1
  obtain ⟨⟨d2, a2, f1, f2, f3⟩, k2, q2⟩ := h2
  refine ⟨⟨d1 ++ d2, a1 ++ a2, ?_, ?_, ?_⟩, k2.trans k1, q2.trans q1⟩
  · rw [f1, e1, List.append_assoc]
  · rw [f2, e2, List.append_assoc]
  · simp [e3, f3]

theorem tp_lockstep_ext_of_shape (c c' : BuildCtx)
    (h1 : (c'.target_partial_tl = c.target_partial_tl ∧
           c'.groupby_actions = c.groupby_actions) ∨
          (∃ e act, c'.target_partial_tl = c.target_partial_tl ++ [(e, 0)] ∧
                    c'.groupby_actions = c.groupby_actions ++ [act]))
    (h2 : c'.groupby_keys = c.groupby_keys)
    (h3 : c'.parse = c.parse) : tp_lockstep_ext c c' := by
  rcases h1 with ⟨ha, hb⟩ | ⟨e, act, ha, hb⟩
  · exact ⟨⟨[], [], by simp [ha], by simp [hb], rfl⟩, h2, h3⟩
  · exact ⟨⟨[(e, 0)], [act], ha, hb, rfl⟩, h2, h3⟩

theorem make_alternative_aggref_ext
    (env : HostEnv) (con : BuildCtx) (aggfnoid aggtype : Oid)
    (ho hd os va : Bool) (args : List Expr)
    (r : Option Expr) (con' : BuildCtx)
    (h : make_alternative_aggref env con aggfnoid aggtype ho hd os va args =
           .ok (r, con')) :
    tp_lockstep_ext con con' := by
  unfold make_alternative_aggref at h
  by_cases h1 : ho = true ∨ hd = true
  · rw [if_pos h1] at h
    simp only [Except.ok.injEq, Prod.mk.injEq] at h
    rw [← h.2]
    exact tp_lockstep_ext_refl con
  · rw [if_neg h1] at h
    by_cases h2 : os = true
    · rw [if_pos h2] at h
      simp only [Except.ok.injEq, Prod.mk.injEq] at h
      rw [← h.2]
      exact tp_lockstep_ext_refl con
    · rw [if_neg h2] at h
      obtain ⟨res, cache1, hlk⟩ :
          ∃ res cache1,
            aggfunc_catalog_lookup_by_oid env.live env.enable_numeric_aggfuncs
              con.cache aggfnoid = (res, cache1) := ⟨_, _, rfl⟩
      rw [hlk] at h
      cases res with
      | error msg => exact Except.noConfusion h
      | ok entryOpt =>
          cases entryOpt with
          | none =>
              simp only [Except.ok.injEq, Prod.mk.injEq] at h
              rw [← h.2]
              exact tp_lockstep_ext_of_shape _ _ (Or.inl ⟨rfl, rfl⟩) rfl rfl
          | some aggfn_cat =>
              dsimp only at h
              cases hproc : env.live.procByOid aggfn_cat.partial_func_oid with
              | none => rw [hproc] at h; exact Except.noConfusion h
              | some proc =>
                  rw [hproc] at h
                  dsimp only at h
                  cases hargs : make_alternative_aggref_args env
                      { con with cache := cache1 }
                      (args.zip proc.proargtypes) with
                  | error msg => rw [hargs] at h; exact Except.noConfusion h
                  | ok argsOpt =>
                      rw [hargs] at h
                      cases argsOpt with
                      | none =>
                          simp only [Except.ok.injEq, Prod.mk.injEq] at h
                          rw [← h.2]
                          exact tp_lockstep_ext_of_shape _ _
                            (Or.inl ⟨rfl, rfl⟩) rfl rfl
                      | some partfn_args =>
                          dsimp only at h
                          cases hagg : env.live.aggForm
                              aggfn_cat.final_func_oid with
                          | none => rw [hagg] at h; exact Except.noConfusion h
                          | some agg =>
                              rw [hagg] at h
                              dsimp only at h
                              simp only [Except.ok.injEq, Prod.mk.injEq] at h
                              rw [← h.2]
                              repeat' split
                              all_goals first
                                | exact tp_lockstep_ext_of_shape _ _
                                    (Or.inl ⟨rfl, rfl⟩) rfl rfl
                                | exact tp_lockstep_ext_of_shape _ _
                                    (Or.inr ⟨_, _, rfl, rfl⟩) rfl rfl

mutual

theorem replace_expression_by_altfunc_ext (env : HostEnv) (con : BuildCtx)
    (e : Expr) (r : Option Expr) (con' : BuildCtx)
    (h : replace_expression_by_altfunc env con e = .ok (r, con')) :
    tp_lockstep_ext con con' := by
  cases e with
  | nullExpr =>
      simp only [replace_expression_by_altfunc, Except.ok.injEq,
        Prod.mk.injEq] at h
      rw [← h.2]
      exact tp_lockstep_ext_refl con
  | aggrefE f t ho hd os va as =>
      rw [replace_expression_by_altfunc] at h
      cases hm : make_alternative_aggref env con f t ho hd os va as with
      | error msg => rw [hm] at h; exact Except.noConfusion h
      | ok res =>
          obtain ⟨r0, con1⟩ := res
          rw [hm] at h
          obtain ⟨⟨d, a, e1, e2, e3⟩, hk, hq⟩ :=
            make_alternative_aggref_ext env con f t ho hd os va as r0 con1 hm
          cases r0 with
          | none =>
              simp only [Except.ok.injEq, Prod.mk.injEq] at h
              rw [← h.2]
              exact ⟨⟨d, a, e1, e2, e3⟩, hk, hq⟩
          | some aggfn =>
              simp only [Except.ok.injEq, Prod.mk.injEq] at h
              rw [← h.2]
              exact ⟨⟨d, a, e1, e2, e3⟩, hk, hq⟩
  | varE v t =>
      rw [replace_expression_by_altfunc] at h
      split at h
      · simp only [Except.ok.injEq, Prod.mk.injEq] at h
        rw [← h.2]
        exact tp_lockstep_ext_refl con
      · exact Except.noConfusion h
  | phVar v t =>
      rw [replace_expression_by_altfunc] at h
      split at h
      · simp only [Except.ok.injEq, Prod.mk.injEq] at h
        rw [← h.2]
        exact tp_lockstep_ext_refl con
      · exact Except.noConfusion h
  | constE t v =>
      rw [replace_expression_by_altfunc] at h
      split at h <;>
        (simp only [Except.ok.injEq, Prod.mk.injEq] at h
         rw [← h.2]
         exact tp_lockstep_ext_refl con)
  | relabelE a t =>
      rw [replace_expression_by_altfunc] at h
      split at h
      · simp only [Except.ok.injEq, Prod.mk.injEq] at h
        rw [← h.2]
        exact tp_lockstep_ext_refl con
      · cases hr : replace_expression_by_altfunc env con a with
        | error msg => rw [hr] at h; exact Except.noConfusion h
        | ok res =>
            obtain ⟨r0, con1⟩ := res
            rw [hr] at h
            simp only [Except.ok.injEq, Prod.mk.injEq] at h
            rw [← h.2]
            exact replace_expression_by_altfunc_ext env con a r0 con1 hr
  | funcE f t as =>
      rw [replace_expression_by_altfunc] at h
      split at h
      · simp only [Except.ok.injEq, Prod.mk.injEq] at h
        rw [← h.2]
        exact tp_lockstep_ext_refl con
      · cases hr : replace_expression_list_by_altfunc env con as with
        | error msg => rw [hr] at h; exact Except.noConfusion h
        | ok res =>
            obtain ⟨rs, con1⟩ := res
            rw [hr] at h
            simp only [Except.ok.injEq, Prod.mk.injEq] at h
            rw [← h.2]
            exact replace_expression_list_by_altfunc_ext env con as rs con1 hr
  | opE o t as =>
      rw [replace_expression_by_altfunc] at h
      split at h
      · simp only [Except.ok.injEq, Prod.mk.injEq] at h
        rw [← h.2]
        exact tp_lockstep_ext_refl con
      · cases hr : replace_expression_list_by_altfunc env con as with
        | error msg => rw [hr] at h; exact Except.noConfusion h
        | ok res =>
            obtain ⟨rs, con1⟩ := res
            rw [hr] at h
            simp only [Except.ok.injEq, Prod.mk.injEq] at h
            rw [← h.2]
            exact replace_expression_list_by_altfunc_ext env con as rs con1 hr

theorem replace_expression_list_by_altfunc_ext (env : HostEnv) (con : BuildCtx)
    (l : List Expr) (rs : List Expr) (con' : BuildCtx)
    (h : replace_expression_list_by_altfunc env con l = .ok (rs, con')) :
    tp_lockstep_ext con con' := by
  cases l with
  | nil =>
      simp only [replace_expression_list_by_altfunc, Except.ok.injEq,
        Prod.mk.injEq] at h
      rw [← h.2]
      exact tp_lockstep_ext_refl con
  | cons x xs =>
      rw [replace_expression_list_by_altfunc] at h
      cases hx : replace_expression_by_altfunc env con x with
      | error msg => rw [hx] at h; exact Except.noConfusion h
      | ok res =>
          obtain ⟨r0, con1⟩ := res
          rw [hx] at h
          dsimp only at h
          cases hxs : replace_expression_list_by_altfunc env con1 xs with
          | error msg => rw [hxs] at h; exact Except.noConfusion h
          | ok res2 =>
              obtain ⟨rs2, con2⟩ := res2
              rw [hxs] at h
              simp only [Except.ok.injEq, Prod.mk.injEq] at h
              rw [← h.2]
              exact tp_lockstep_ext_trans
                (replace_expression_by_altfunc_ext env con x r0 con1 hx)
                (replace_expression_list_by_altfunc_ext env con1 xs rs2
                  con2 hxs)

end

theorem xpugroupby_build_path_target_scan_spec (env : HostEnv) :
    ∀ (lst : List (Expr × Nat)) (con : BuildCtx) (refs : List Nat)
      (con' : BuildCtx) (refs' : List Nat),
      xpugroupby_build_path_target_scan env con refs lst =
        .ok (some (con', refs')) →
      (∃ d a, con'.target_partial_tl = con.target_partial_tl ++ d ∧
              con'.groupby_actions = con.groupby_actions ++ a ∧
              d.length = a.length) ∧
      (∃ ks rs, con'.groupby_keys = con.groupby_keys ++ ks ∧
                refs' = refs ++ rs ∧ ks.length = rs.length) ∧
      con'.parse = con.parse := by
  intro lst
  induction lst with
  | nil =>
      intro con refs con' refs' h
      simp only [xpugroupby_build_path_target_scan, Except.ok.injEq,
        Option.some.injEq, Prod.mk.injEq] at h
      obtain ⟨h1, h2⟩ := h
      subst h1; subst h2
      exact ⟨⟨[], [], by simp, by simp, rfl⟩,
             ⟨[], [], by simp, by simp, rfl⟩, rfl⟩
  | cons hd rest ih =>
      intro con refs con' refs' h
      obtain ⟨expr, sgr⟩ := hd
      simp only [xpugroupby_build_path_target_scan] at h
      split at h
      · split at h
        · simp at h
        · split at h
          · simp at h
          · split at h
            · simp at h
            · obtain ⟨⟨d, a, p1, p2, p3⟩, ⟨ks, rs, k1, k2, k3⟩, hpp⟩ :=
                ih _ _ _ _ h
              refine ⟨⟨d, a, p1, p2, p3⟩,
                      ⟨expr :: ks, sgr :: rs, ?_, ?_, ?_⟩, hpp⟩
              · rw [k1]; simp
              · rw [k2]; simp
              · simpa using k3
      · cases expr with
        | aggrefE f t ho hd' os va as =>
            dsimp only at h
            cases hm : make_alternative_aggref env con f t ho hd' os va as with
            | error msg => rw [hm] at h; exact Except.noConfusion h
            | ok res =>
                obtain ⟨r0, con1⟩ := res
                rw [hm] at h
                cases r0 with
                | none => simp at h
                | some altfn =>
                    dsimp only at h
                    split at h
                    · exact Except.noConfusion h
                    · obtain ⟨⟨d0, a0, q1, q2, q3⟩, hk0, hq0⟩ :=
                        make_alternative_aggref_ext env con f t ho hd' os va
                          as (some altfn) con1 hm
                      obtain ⟨⟨d, a, p1, p2, p3⟩, ⟨ks, rs, k1, k2, k3⟩,
                              hpp⟩ :=
                        ih _ _ _ _ h
                      refine ⟨⟨d0 ++ d, a0 ++ a, ?_, ?_, ?_⟩,
                              ⟨ks, rs, ?_, k2, k3⟩, hpp.trans hq0⟩
                      · rw [p1]; dsimp only; rw [q1, List.append_assoc]
                      · rw [p2]; dsimp only; rw [q2, List.append_assoc]
                      · simp [p3, q3]
                      · rw [k1]; dsimp only; rw [hk0]
        | nullExpr => simp at h
        | varE v t => simp at h
        | phVar v t => simp at h
        | constE t v => simp at h
        | funcE f t as => simp at h
        | relabelE a t => simp at h
        | opE o t as => simp at h

theorem xpugroupby_attach_groupby_keys_spec :
    ∀ (pairs : List (Expr × Nat)) (c : BuildCtx),
      (xpugroupby_attach_groupby_keys c pairs).target_partial_tl =
        c.target_partial_tl ++ pairs ∧
      (xpugroupby_attach_groupby_keys c pairs).groupby_actions =
        c.groupby_actions ++ List.replicate pairs.length KAggAction.vref ∧
      (xpugroupby_attach_groupby_keys c pairs).groupby_keys =
        c.groupby_keys ∧
      (xpugroupby_attach_groupby_keys c pairs).parse = c.parse := by
  intro pairs
  induction pairs with
  | nil =>
      intro c
      simp [xpugroupby_attach_groupby_keys]
  | cons p rest ih =>
      intro c
      obtain ⟨x, y⟩ := p
      rw [xpugroupby_attach_groupby_keys]
      obtain ⟨i1, i2, i3, i4⟩ := ih _
      refine ⟨?_, ?_, ?_, ?_⟩
      · rw [i1]; simp
      · rw [i2]; simp [List.replicate_succ]
      · rw [i3]
      · rw [i4]

theorem set_pathtarget_cost_preserves (env : HostEnv) (c : BuildCtx) :
    (set_pathtarget_cost_width_both env c).target_partial_tl =
      c.target_partial_tl ∧
    (set_pathtarget_cost_width_both env c).groupby_actions =
      c.groupby_actions ∧
    (set_pathtarget_cost_width_both env c).groupby_keys = c.groupby_keys :=
  ⟨rfl, rfl, rfl⟩

/-- Claim C1 (amended): in a successful target build starting from empty
partial-target/action/key lists, the partial target decomposes into three
phase blocks, each pinned to the phase that produced it: first the partial
target of the upper-target-list scan (exactly the partial-aggregate columns
appended for select-list aggregates, with their actions in lock-step), then
the contiguous block of all recorded grouping keys zipped with their
sort-group references (actions all `VREF`), then exactly the columns the
HAVING rewrite appended (none when there is no HAVING predicate, and
otherwise precisely the suffix added by `replace_expression_by_altfunc`,
with actions in lock-step).  Grouping keys therefore come strictly after
every partial-aggregate column of the select-list phase, and strictly
before every partial-aggregate column appended for a HAVING-only
aggregate. -/
theorem C1_grouping_key_block_decomposition
    (env : HostEnv) (con con' : BuildCtx)
    (h0 : con.target_partial_tl = []) (h1 : con.groupby_actions = [])
    (h2 : con.groupby_keys = [])
    (h : xpugroupby_build_path_target env con = .ok (true, con')) :
    ∃ c1 refs H B,
      xpugroupby_build_path_target_scan env con [] con.target_upper =
        .ok (some (c1, refs)) ∧
      c1.target_partial_tl.length = c1.groupby_actions.length ∧
      con'.groupby_keys = c1.groupby_keys ∧
      con'.groupby_keys.length = refs.length ∧
      H.length = B.length ∧
      con'.target_partial_tl =
        c1.target_partial_tl ++ con'.groupby_keys.zip refs ++ H ∧
      con'.groupby_actions =
        c1.groupby_actions ++
          List.replicate con'.groupby_keys.length KAggAction.vref ++ B ∧
      (con.parse.havingQual = none → H = [] ∧ B = []) ∧
      (∀ hq, con.parse.havingQual = some hq →
        ∃ hq1 c3,
          replace_expression_by_altfunc env
            (xpugroupby_attach_groupby_keys c1 (c1.groupby_keys.zip refs)) hq
            = .ok (some hq1, c3) ∧
          c3.target_partial_tl =
            (xpugroupby_attach_groupby_keys c1
              (c1.groupby_keys.zip refs)).target_partial_tl ++ H ∧
          c3.groupby_actions =
            (xpugroupby_attach_groupby_keys c1
              (c1.groupby_keys.zip refs)).groupby_actions ++ B) := by
  unfold xpugroupby_build_path_target at h
  cases hscan : xpugroupby_build_path_target_scan env con [] con.target_upper with
  | error msg => rw [hscan] at h; exact Except.noConfusion h
  | ok stepRes =>
      rw [hscan] at h
      cases stepRes with
      | none => simp at h
      | some pr =>
          obtain ⟨c1, refs⟩ := pr
          dsimp only at h
          obtain ⟨⟨P, A, p1, p2, p3⟩, ⟨K, R, k1, k2, k3⟩, hpp⟩ :=
            xpugroupby_build_path_target_scan_spec env _ _ _ _ _ hscan
          rw [h0] at p1
          rw [h1] at p2
          rw [h2] at k1
          simp only [List.nil_append] at p1 p2 k1 k2
          obtain ⟨a1, a2, a3, a4⟩ :=
            xpugroupby_attach_groupby_keys_spec (c1.groupby_keys.zip refs) c1
          cases hhq : (xpugroupby_attach_groupby_keys c1
              (c1.groupby_keys.zip refs)).parse.havingQual with
          | none =>
              have hng : con.parse.havingQual = none := by
                rw [← hpp, ← a4]; exact hhq
              rw [hhq] at h
              dsimp only at h
              simp only [Except.ok.injEq, Prod.mk.injEq, true_and] at h
              rw [← h]
              rw [(set_pathtarget_cost_preserves env _).1,
                  (set_pathtarget_cost_preserves env _).2.1,
                  (set_pathtarget_cost_preserves env _).2.2]
              dsimp only
              refine ⟨c1, refs, [], [], rfl, ?_, a3, ?_, rfl, ?_, ?_,
                      fun _ => ⟨rfl, rfl⟩, ?_⟩
              · rw [p1, p2, p3]
              · rw [a3, k1, k3, k2]
              · rw [a1, a3]
                simp
              · rw [a2, a3]
                simp only [List.append_nil, List.length_zip]
                rw [k1, k3, k2, Nat.min_self]
              · intro hq hsome
                rw [hng] at hsome
                exact Option.noConfusion hsome
          | some hq =>
              have hps : con.parse.havingQual = some hq := by
                rw [← hpp, ← a4]; exact hhq
              rw [hhq] at h
              dsimp only at h
              cases hrep : replace_expression_by_altfunc env
                  (xpugroupby_attach_groupby_keys c1
                    (c1.groupby_keys.zip refs)) hq with
              | error msg => rw [hrep] at h; exact Except.noConfusion h
              | ok res =>
                  obtain ⟨r0, c3⟩ := res
                  rw [hrep] at h
                  cases r0 with
                  | none => simp at h
                  | some hq1 =>
                      dsimp only at h
                      simp only [Except.ok.injEq, Prod.mk.injEq,
                        true_and] at h
                      rw [← h]
                      obtain ⟨⟨Hs, Bs, r1, r2, r3⟩, rk, rp⟩ :=
                        replace_expression_by_altfunc_ext env _ hq
                          (some hq1) c3 hrep
                      rw [(set_pathtarget_cost_preserves env _).1,
                          (set_pathtarget_cost_preserves env _).2.1,
                          (set_pathtarget_cost_preserves env _).2.2]
                      dsimp only
                      refine ⟨c1, refs, Hs, Bs, rfl, ?_, ?_, ?_, r3,
                              ?_, ?_, ?_, ?_⟩
                      · rw [p1, p2, p3]
                      · rw [rk, a3]
                      · rw [rk, a3, k1, k3, k2]
                      · rw [r1, a1, rk, a3]
                      · rw [r2, a2, rk, a3]
                        simp only [List.append_assoc, List.length_zip]
                        rw [k1, k3, k2, Nat.min_self]
                      · intro hnone
                        rw [hps] at hnone
                        exact Option.noConfusion hnone
                      · intro hq2 hsome
                        rw [hps, Option.some.injEq] at hsome
                        subst hsome
                        exact ⟨hq1, c3, hrep, r1, r2⟩

/-- Claim C1 counterexample: with one grouping key in the select list and a
`count(*)` appearing only in the HAVING predicate, the successful build
places the grouping key at position 0 of the partial target and the
partial-aggregate column for the HAVING aggregate at position 1, so the
grouping key does not come after every partial-aggregate column. -/
theorem C1_counterexample_having_aggregate_after_key :
    bp_partial_result (xpugroupby_build_path_target envStd conC1) =
      some ([(.varE 1 23, 1), (.funcE 9001 20 [], 0)],
            [.vref, .nrows_any]) := rfl

theorem C1_witness :
    conC1.target_partial_tl = [] ∧ conC1.groupby_actions = [] ∧
    conC1.groupby_keys = [] ∧
    xpugroupby_build_path_target envStd conC1 = .ok (true, conC1_final) ∧
    (∃ c1 refs H B,
      xpugroupby_build_path_target_scan envStd conC1 [] conC1.target_upper =
        .ok (some (c1, refs)) ∧
      c1.target_partial_tl.length = c1.groupby_actions.length ∧
      conC1_final.groupby_keys = c1.groupby_keys ∧
      conC1_final.groupby_keys.length = refs.length ∧
      H.length = B.length ∧
      conC1_final.target_partial_tl =
        c1.target_partial_tl ++ conC1_final.groupby_keys.zip refs ++ H ∧
      conC1_final.groupby_actions =
        c1.groupby_actions ++
          List.replicate conC1_final.groupby_keys.length KAggAction.vref
            ++ B ∧
      (conC1.parse.havingQual = none → H = [] ∧ B = []) ∧
      (∀ hq, conC1.parse.havingQual = some hq →
        ∃ hq1 c3,
          replace_expression_by_altfunc envStd
            (xpugroupby_attach_groupby_keys c1 (c1.groupby_keys.zip refs)) hq
            = .ok (some hq1, c3) ∧
          c3.target_partial_tl =
            (xpugroupby_attach_groupby_keys c1
              (c1.groupby_keys.zip refs)).target_partial_tl ++ H ∧
          c3.groupby_actions =
            (xpugroupby_attach_groupby_keys c1
              (c1.groupby_keys.zip refs)).groupby_actions ++ B)) :=
  ⟨rfl, rfl, rfl, rfl,
   C1_grouping_key_block_decomposition envStd conC1 conC1_final
     rfl rfl rfl rfl⟩

/-- Claim C3 (refuted by the code): a failed aggregate rewrite nested inside
the HAVING predicate does not make the target build fail.  On the concrete
input `SELECT count(*) ... HAVING weird_agg() > 10` (the aggregate 4242 not
resolvable), `xpugroupby_build_path_target` returns success (`true`) with a
rewritten HAVING predicate containing a NULL hole where the aggregate was;
the failure was recorded in `device_executable = false`, a flag the module
sets but never reads. -/
theorem C3_nested_having_failure_not_propagated :
    bp_flags_having (xpugroupby_build_path_target envStd conC3) =
      some (true, false,
        some (.opE 521 16 [.nullExpr, .constE 23 10])) := rfl

/-- Claim C6 counterexample: an aggregate call marked variadic whose function
oid resolves in the catalog is rewritten into the alternative final
aggregate, not rejected: the rewriter contains no run-time variadic check. -/
theorem C6_counterexample_variadic_rewritten :
    rewrite_result (make_alternative_aggref envStd conBase 2803 20
      false false false true []) =
    some (some (.aggrefE 9002 20 false false false false
      [.funcE 9001 20 []])) := rfl

/-- Claim C6 (amended): the rewriter never inspects the variadic flag at run
time (the C code only carries a debug-build assertion), so the result of
`make_alternative_aggref` is independent of it; a variadic aggregate call is
declined exactly when its function identifier fails to resolve against the
catalog (the resolver returning "not usable"), which yields `none` without
any fatal error. -/
theorem C6_variadic_flag_never_checked :
    (∀ (env : HostEnv) (con : BuildCtx) (aggfnoid aggtype : Oid)
       (hasOrder hasDistinct isOrderedSet va va' : Bool) (args : List Expr),
       make_alternative_aggref env con aggfnoid aggtype hasOrder hasDistinct
         isOrderedSet va args =
       make_alternative_aggref env con aggfnoid aggtype hasOrder hasDistinct
         isOrderedSet va' args) ∧
    (∀ (env : HostEnv) (con : BuildCtx) (aggfnoid aggtype : Oid)
       (va : Bool) (args : List Expr) (cache1 : AggCache),
       aggfunc_catalog_lookup_by_oid env.live env.enable_numeric_aggfuncs
         con.cache aggfnoid = (.ok none, cache1) →
       make_alternative_aggref env con aggfnoid aggtype false false false va
         args = .ok (none, { con with cache := cache1 })) := by
  constructor
  · intro env con aggfnoid aggtype hasOrder hasDistinct isOrderedSet va va'
      args
    rfl
  · intro env con aggfnoid aggtype va args cache1 hlk
    unfold make_alternative_aggref
    rw [hlk]
    simp

theorem C6_witness :
    aggfunc_catalog_lookup_by_oid envStd.live envStd.enable_numeric_aggfuncs
      conBase.cache 4242 = (.ok none, cacheC6) ∧
    make_alternative_aggref envStd conBase 4242 20 false false false true [] =
      .ok (none, { conBase with cache := cacheC6 }) := by
  have h := C6_variadic_flag_never_checked
  exact ⟨rfl, h.2 envStd conBase 4242 20 true [] cacheC6 rfl⟩
